import Mathlib

/-!
Verification of the conversation-and-moderation orchestrator of the
`mening_nomzodim_backend` repository against its natural-language
specification.

The development is a shallow embedding of the TypeScript sources:

* `src/unnamed/part_005` (the `TelegramService` class: order flow, media
  routing, reply debouncing, escalation),
* `src/src/settings/settings.controller.ts` (the `AdminBotService`
  moderation-callback handlers; the same handlers appear in
  `src/src/admin-bot/admin-bot.service.ts`),
* `src/src/database/media-archive-readiness.ts` (the schema readiness
  guard).

Pure functions of the source become Lean functions; stateful code becomes
explicit state passing over a `Db` record; side effects become explicit
effect lists.  Database rows use the column subset the verified claims
depend on.  String work is done over `List Char` so that every definition
evaluates inside the kernel; the char-level helpers mirror the JavaScript
string primitives (`trim`, `includes`, `join`, `split`) on the ASCII
texts this service handles.
-/

namespace MN

/-! ### Char-level string primitives (JS `trim`/`includes`/`join`/`split`) -/

def isWs (c : Char) : Bool := c.isWhitespace

/-- JS `String.prototype.trim` (both ends). -/
def trimChars (l : List Char) : List Char :=
  ((l.dropWhile isWs).reverse.dropWhile isWs).reverse

def trimS (s : String) : String := ⟨trimChars s.data⟩

/-- JS `String.prototype.toLowerCase` restricted to the ASCII texts used here. -/
def lowerS (s : String) : String := ⟨s.data.map Char.toLower⟩

/-- JS `hay.includes(needle)` on char lists. -/
def containsSub (needle : List Char) : List Char → Bool
  | [] => needle.isEmpty
  | c :: cs => needle.isPrefixOf (c :: cs) || containsSub needle cs

/-- JS `hay.includes(needle)` on strings. -/
def hasSubstr (hay needle : String) : Bool := containsSub needle.data hay.data

def containsAny (hay : String) (needles : List String) : Bool :=
  needles.any (fun n => hasSubstr hay n)

/-- JS regex `\w` (ASCII word character). -/
def isWordChar (c : Char) : Bool := c.isAlphanum || c == '_'

/-- One `\bneedle\b` match attempt at the head of `rest`, with `prev` the
character immediately before `rest` (if any). -/
def wordBoundaryAt (needle rest : List Char) (prev : Option Char) : Bool :=
  needle.isPrefixOf rest
    && (match prev with
        | none => true
        | some c => !(isWordChar c))
    && (match rest.drop needle.length with
        | [] => true
        | c :: _ => !(isWordChar c))

def containsWordAux (needle : List Char) : Option Char → List Char → Bool
  | prev, [] => wordBoundaryAt needle [] prev
  | prev, c :: cs =>
      wordBoundaryAt needle (c :: cs) prev || containsWordAux needle (some c) cs

/-- Case-insensitive JS regex `\bneedle\b.test(hay)` (needles start and end
with word characters, as all needles of the source do). -/
def containsWord (hay needle : String) : Bool :=
  containsWordAux (lowerS needle).data none (lowerS hay).data

def containsAnyWord (hay : String) (needles : List String) : Bool :=
  needles.any (fun n => containsWord hay n)

/-- JS `array.join(sep)` on char lists. -/
def intercalateChars (sep : List Char) : List (List Char) → List Char
  | [] => []
  | [x] => x
  | x :: y :: rest => x ++ sep ++ intercalateChars sep (y :: rest)

/-- JS `messages.join("\n")`. -/
def joinNl (xs : List String) : String :=
  ⟨intercalateChars ['\n'] (xs.map String.data)⟩

/-- JS `text.replace(/\r\n/g, "\n")` (also used for the `/\r?\n/` split). -/
def stripCr : List Char → List Char
  | [] => []
  | '\r' :: '\n' :: rest => '\n' :: stripCr rest
  | c :: rest => c :: stripCr rest

def splitOnCharAux (sep : Char) : List Char → List Char → List (List Char)
  | [], cur => [cur.reverse]
  | x :: xs, cur =>
      if x = sep then cur.reverse :: splitOnCharAux sep xs []
      else splitOnCharAux sep xs (x :: cur)

/-- Split a char list on a separator character. -/
def splitOnChar (sep : Char) (l : List Char) : List (List Char) :=
  splitOnCharAux sep l []

end MN

namespace MN

/-! ### Text classifiers (part_005, lines 1348-2081, 2743-2757)

Direct translations of the keyword / word-boundary classifiers of
`TelegramService`.  The JS regexes used here are alternations of literal
words, either as plain substring tests (`includes`) or with `\b` word
boundaries; `containsAny` and `containsAnyWord` implement exactly those
two shapes. -/

/-- `shouldEscalateLocally` (part_005:1348-1381). -/
def shouldEscalateLocally (text : String) : Bool :=
  let normalized := lowerS text
  containsAny normalized
    ["shikoyat", "muammo", "haqorat", "aldadingiz", "pulim", "qaytar",
     "tulov qilmadim", "tulov qilganman", "janjal", "nohaq", "firib",
     "politsiya", "sud", "prokur", "uraman", "so\x27kish", "axmoq", "ahmoq",
     "xayvon", "tentak", "sharmanda", "yolg\x27on", "dolboyob", "pidar",
     "suka", "blya", "fuck", "shit"]

/-- `isPaymentEvidence` (part_005:2743-2757). -/
def isPaymentEvidence (text : String) : Bool :=
  let normalized := lowerS text
  containsAny normalized
    ["chek", "check", "oplata", "payment", "tolov", "tulov", "kvitansiya",
     "skrin", "kvitan"]

/-- `isVipIntent` (part_005:1997-2003). -/
def isVipIntent (text : String) : Bool :=
  let lowered := lowerS text
  hasSubstr lowered "vip" && (hasSubstr lowered "kanal" || hasSubstr lowered "obuna")

/-- `isAdIntent` (part_005:2005-2025). -/
def isAdIntent (text : String) : Bool :=
  let lowered := lowerS text
  if containsAny lowered ["e\x27lon", "elon", "reklama"] then true
  else if !(hasSubstr lowered "anketa") then false
  else if containsAny lowered
      ["raqam", "kontakt", "nomer", "telefon", "tel", "aloqa", "lich"] then
    false
  else containsAny lowered ["joyla", "chiqar", "tashla", "post", "kanal"]

/-- `isAffirmative` (part_005:2027-2029), regex `/(\bha\b|...)/i`. -/
def isAffirmative (text : String) : Bool :=
  containsAnyWord text ["ha", "xa", "xo\x27p", "mayli", "olaman", "ok"]

/-- `isNegative` (part_005:2031-2035). -/
def isNegative (text : String) : Bool :=
  containsAnyWord text ["yoq", "yo\x27q", "kerak emas", "bekor", "istamayman"]

/-- `isMediaResetCommand` (part_005:2037-2041); the regex has no anchors or
boundaries, so it is a plain substring alternation. -/
def isMediaResetCommand (text : String) : Bool :=
  containsAny (lowerS text)
    ["reset media", "media reset", "media tozalash", "media tozalansin"]

/-- `parseGender` (part_005:2071-2076). -/
def parseGender (text : String) : Option String :=
  let lowered := lowerS text
  if containsAnyWord lowered ["ayol", "qiz"] then some "female"
  else if containsAnyWord lowered ["erkak", "yigit"] then some "male"
  else none

/-- `isLikelyAnketa` (part_005:2504-2520). -/
def isLikelyAnketa (text : String) : Bool :=
  let normalized := lowerS text
  let keywords := ["jins", "ism", "yosh", "manzil", "raqam", "telefon", "boy"]
  let lines := (splitOnChar '\n' (stripCr text.data)).filter
    (fun l => containsSub [':'] l)
  let keywordHits := (keywords.filter (fun w => hasSubstr normalized w)).length
  decide (3 ≤ lines.length) && decide (2 ≤ keywordHits)

/-- `isBareAnketaId` (part_005:1965-1967): regex `/^\d{3,6}$/` on the trim. -/
def isBareAnketaId (text : String) : Bool :=
  let s := trimChars text.data
  s.all (·.isDigit) && decide (3 ≤ s.length) && decide (s.length ≤ 6)

/-- `hasContactKeyword` (part_005:1969-1990); argument is already lowercased. -/
def hasContactKeyword (normalized : String) : Bool :=
  if containsAny normalized
      ["kontakt", "nomer", "raqam", "telefon", "tel", "aloqa", "lich",
       "lichka", "dm"] then true
  else
    let hasPhoto := containsAny normalized ["rasm", "surat", "foto"]
    let hasSubject := containsAny normalized ["anketa", "nomzod", "egasi", "id"]
    hasPhoto && hasSubject

/-- `hasAnketaLabel` (part_005:1992-1995). -/
def hasAnketaLabel (normalized : String) : Bool :=
  containsAny normalized ["anketa", "nomzod", "id", "raqam"]

/-- `parseContactIntent` (part_005:1925-1942).  The digit extraction
`extractAnketaId` (part_005:1944-1963, three regexes over digit groups with a
price-suffix lookahead) is supplied as the parameter `extractedAdId`; for any
text containing no decimal digit all three regexes and the bare-id fallback
fail, so `none` is its exact value on such texts. -/
def parseContactIntentM (text : String) (extractedAdId : Option Nat) : Option Nat :=
  if isLikelyAnketa text then none
  else
    match extractedAdId with
    | none => none
    | some adId =>
        let normalized := lowerS text
        if hasContactKeyword normalized || hasAnketaLabel normalized
            || isBareAnketaId text || hasSubstr text "#" then
          some adId
        else none

/-- `isEscalationResponse` (part_005:1159-1161). -/
def isEscalationResponse (responseText : String) : Bool :=
  lowerS (trimS responseText) == "escalate_to_human"

/-! ### Fixed prices and price rule (part_005:103-105, 2078-2081) -/

def contactPrice : Nat := 99000
def vipPrice : Nat := 490000
def adPrice : Nat := 90000

/-- `computeAdPrice` (part_005:2078-2081). -/
def computeAdPrice (gender : String) (adCount : Nat) : Nat :=
  if gender = "female" ∧ adCount = 0 then 0 else adPrice

/-- `formatAmount` (part_005:2043-2048). -/
def formatAmount (amount : Nat) : String :=
  if amount % 1000 = 0 then toString (amount / 1000) ++ " ming"
  else toString amount

/-- `buildAdPriceMessage` (part_005:2050-2056). -/
def buildAdPriceMessage (gender : String) (adCount : Nat) (amount : Nat) : String :=
  let base := "Narxi " ++ formatAmount amount ++ ". Karta tashlaymi?"
  if gender = "female" ∧ 0 < adCount then
    "Birinchi e\x27lon bepul edi. " ++ base
  else base

/-- `resolveProfileGender` (part_005:1266-1272). -/
def resolveProfileGender (value : Option String) : Option String :=
  match value with
  | none => none
  | some v =>
      if v = "" then none
      else
        let lowered := lowerS (trimS v)
        if lowered ∈ ["female", "ayol", "qiz"] then some "female"
        else if lowered ∈ ["male", "erkak", "yigit"] then some "male"
        else none

end MN

namespace MN

/-! ### Data model (drizzle schema rows restricted to the verified columns) -/

/-- `user_profiles` row (`userId`, `gender`, `currentStep`, `adCount`). -/
structure Profile where
  userId : String
  gender : Option String
  currentStep : String
  adCount : Nat
deriving Repr, DecidableEq

/-- `orders` row (`id`, `orderType`, `status`, `userId`, `amount`, `adId`). -/
structure OrderRow where
  id : Nat
  orderType : String
  status : String
  userId : String
  amount : Nat
  adId : Option Nat
deriving Repr, DecidableEq

/-- `user_media` row (`userId`, `mediaType`, `orderId`, `messageId`). -/
structure MediaRow where
  userId : String
  mediaType : String
  orderId : Option Nat
  messageId : Nat
deriving Repr, DecidableEq

/-- The relational state seen by `TelegramService`; `nextOrderId` models the
serial primary key of `orders`. -/
structure Db where
  profiles : List Profile
  orders : List OrderRow
  media : List MediaRow
  nextOrderId : Nat
deriving Repr, DecidableEq

/-- The open-status allow-list of `getLatestOpenOrder` / `getOpenAdOrder`
(part_005:1886-1893, 1910-1917). -/
def openStatuses : List String :=
  ["awaiting_payment", "awaiting_check", "payment_submitted",
   "awaiting_gender", "awaiting_content", "ready_to_publish"]

/-- `orderBy id desc limit 1` over a filtered row set (row ids are the serial
primary key, so the maximal id is the most recent row). -/
def latestById (rows : List OrderRow) : Option OrderRow :=
  rows.foldl
    (fun acc r =>
      match acc with
      | none => some r
      | some a => if a.id < r.id then some r else some a)
    none

/-- `getLatestOpenOrder` (part_005:1879-1900). -/
def getLatestOpenOrder (db : Db) (userId : String) : Option OrderRow :=
  latestById (db.orders.filter
    (fun o => decide (o.userId = userId ∧ o.status ∈ openStatuses)))

/-- `getOpenAdOrder` (part_005:1902-1923). -/
def getOpenAdOrder (db : Db) (userId : String) : Option OrderRow :=
  latestById (db.orders.filter
    (fun o => decide (o.userId = userId ∧ o.orderType = "ad" ∧ o.status ∈ openStatuses)))

def findProfile (db : Db) (userId : String) : Option Profile :=
  db.profiles.find? (fun p => p.userId = userId)

/-- `getOrCreateUserProfile` (part_005:2083-2103). -/
def getOrCreateUserProfile (db : Db) (userId : String) : Db × Profile :=
  match findProfile db userId with
  | some p => (db, p)
  | none =>
      let p : Profile := ⟨userId, none, "idle", 0⟩
      ({ db with profiles := db.profiles ++ [p] }, p)

def updateProfileRow (db : Db) (userId : String) (f : Profile → Profile) : Db :=
  let g := fun (p : Profile) => if p.userId = userId then f p else p
  { db with profiles := db.profiles.map g }

/-- `updateUserGender` (part_005:2105-2111). -/
def updateUserGender (db : Db) (userId gender : String) : Db :=
  updateProfileRow db userId (fun p => { p with gender := some gender })

/-- `incrementAdCount` (part_005:2113-2121). -/
def incrementAdCount (db : Db) (userId : String) : Db :=
  let r := getOrCreateUserProfile db userId
  updateProfileRow r.1 userId (fun p => { p with adCount := r.2.adCount + 1 })

def updateOrderStatus (db : Db) (orderId : Nat) (status : String) : Db :=
  let f := fun (o : OrderRow) => if o.id = orderId then { o with status := status } else o
  { db with orders := db.orders.map f }

def updateOrderAmountStatus (db : Db) (orderId : Nat) (amount : Nat) (status : String) : Db :=
  let f := fun (o : OrderRow) =>
    if o.id = orderId then { o with amount := amount, status := status } else o
  { db with orders := db.orders.map f }

def findOrder (db : Db) (orderId : Nat) : Option OrderRow :=
  db.orders.find? (fun o => o.id = orderId)

/-- `clearOrderMedia` (part_005:3260-3271). -/
def clearOrderMedia (db : Db) (userId : String) (orderId : Nat) : Db :=
  let keep := fun (m : MediaRow) => !decide (m.userId = userId ∧ m.orderId = some orderId)
  { db with media := db.media.filter keep }

/-! ### StepStateMachine (part_005:478-597) -/

def knownSteps : List String :=
  ["idle", "awaiting_gender", "awaiting_payment_confirmation",
   "awaiting_payment_receipt", "payment_receipt_submitted",
   "awaiting_candidate_media", "candidate_media_ready",
   "awaiting_publish_review", "escalated_to_admin"]

/-- `normalizeCurrentStep` (part_005:478-495). -/
def normalizeCurrentStep (value : String) : String :=
  let normalized := lowerS (trimS value)
  if normalized ∈ knownSteps then normalized else "idle"

/-- `resolveStepFromOrderState` (part_005:497-519). -/
def resolveStepFromOrderState (orderType orderStatus : Option String) : String :=
  match orderStatus with
  | none => "idle"
  | some st =>
      if st = "awaiting_gender" then "awaiting_gender"
      else if st = "awaiting_payment" then "awaiting_payment_confirmation"
      else if st = "awaiting_check" then "awaiting_payment_receipt"
      else if st = "payment_submitted" then "payment_receipt_submitted"
      else if orderType = some "ad" ∧ st = "awaiting_content" then
        "awaiting_candidate_media"
      else if orderType = some "ad" ∧ st = "ready_to_publish" then
        "awaiting_publish_review"
      else "idle"

/-- `setUserCurrentStep` (part_005:521-540): guarded conditional write of the
persisted step; returns the step now stored. -/
def setUserCurrentStep (db : Db) (userId nextStep : String)
    (expectedCurrentStep : Option String) : Db × String :=
  let r := getOrCreateUserProfile db userId
  let db1 := r.1
  let currentStep := normalizeCurrentStep r.2.currentStep
  match expectedCurrentStep with
  | some expected =>
      if currentStep ≠ expected then (db1, currentStep)
      else if currentStep = nextStep then (db1, currentStep)
      else (updateProfileRow db1 userId (fun p => { p with currentStep := nextStep }), nextStep)
  | none =>
      if currentStep = nextStep then (db1, currentStep)
      else (updateProfileRow db1 userId (fun p => { p with currentStep := nextStep }), nextStep)

/-- `syncUserCurrentStepFromOrderState` (part_005:542-554); a `none` user id
models the falsy `!params.userId` guard. -/
def syncUserCurrentStepFromOrderState (db : Db) (userId : Option String)
    (orderType orderStatus : Option String) : Db × String :=
  match userId with
  | none => (db, "idle")
  | some u =>
      let nextStep := resolveStepFromOrderState orderType orderStatus
      let r := setUserCurrentStep db u nextStep none
      (r.1, nextStep)

/-- `syncUserCurrentStepFromOrderId` (part_005:556-575); an empty user id on
the row models the falsy `!order?.userId` guard. -/
def syncUserCurrentStepFromOrderId (db : Db) (orderId : Nat) : Db × String :=
  match findOrder db orderId with
  | none => (db, "idle")
  | some o =>
      if o.userId = "" then (db, "idle")
      else syncUserCurrentStepFromOrderState db (some o.userId) (some o.orderType) (some o.status)

/-- `resolveCurrentStep` (part_005:577-597). -/
def resolveCurrentStep (db : Db) (userId : String)
    (openOrderParam : Option OrderRow) : Db × String :=
  let r := getOrCreateUserProfile db userId
  let db1 := r.1
  let persisted := normalizeCurrentStep r.2.currentStep
  if persisted = "escalated_to_admin" then (db1, persisted)
  else
    let openOrder :=
      match openOrderParam with
      | some o => some o
      | none => getLatestOpenOrder db1 userId
    let inferred := resolveStepFromOrderState
      (openOrder.map (fun o => o.orderType)) (openOrder.map (fun o => o.status))
    if inferred ≠ "idle" ∧ inferred ≠ persisted then
      setUserCurrentStep db1 userId inferred none
    else (db1, if persisted ≠ "idle" then persisted else inferred)

end MN

namespace MN

/-! ### OrderLedger / order-flow handling (part_005:1635-1877, 3093-3126)

`sendAdminResponse` and the transport calls are recorded as effects; the
database mutations are applied to `Db`. -/

/-- Side effects of the conversation flows (transport sends, task creation,
image analysis); each constructor names one collaborator call of the source. -/
inductive Eff where
  | sendUser (userId text : String)
  | forwardPaymentsTopic
  | forwardPhotosTopic
  | forwardVideosTopic
  | blurAttempt
  | createTask (taskType : String)
  | analyzeImage (kind : String)
  | readinessFail
deriving Repr, DecidableEq

/-- Configuration read from the environment: template links and the payment
card fields (`none` models the falsy/unset case). -/
structure FlowCfg where
  templateLink : Option String
  templateLinkMale : Option String
  templateLinkFemale : Option String
  paymentCardNumber : Option String
  paymentCardOwner : Option String
deriving Repr, DecidableEq

/-- `buildPaymentMessage` (part_005:2058-2069). -/
def buildPaymentMessage (cfg : FlowCfg) (amount : Nat) : String :=
  let cardLines :=
    match cfg.paymentCardNumber with
    | some num => ["Karta raqami:", num]
    | none => []
  let ownerLines :=
    match cfg.paymentCardOwner with
    | some owner => ["Karta egasi: " ++ owner]
    | none => []
  joinNl (["Narxi " ++ formatAmount amount ++ "."] ++ cardLines ++ ownerLines
    ++ ["Chekni yuborasiz."])

/-- `resolveTemplateLinkForGender` (part_005:1310-1318). -/
def resolveTemplateLinkForGender (cfg : FlowCfg) (gender : String) : Option String :=
  if gender = "male" ∧ cfg.templateLinkMale.isSome then cfg.templateLinkMale
  else if gender = "female" ∧ cfg.templateLinkFemale.isSome then cfg.templateLinkFemale
  else cfg.templateLink

/-- The fallback anketa template block (part_005:1334-1343). -/
def anketaTemplateText : String :=
  joinNl ["Anketa shabloni:", "Jins: ", "Ism: ", "Yosh: ", "Manzil: ",
    "Boy: ", "Talab: ", "Tel: "]

/-- `sendPostingTemplateForGender` (part_005:1320-1346) as its effect list. -/
def sendPostingTemplateEffs (cfg : FlowCfg) (userId gender : String) : List Eff :=
  match resolveTemplateLinkForGender cfg gender with
  | some link =>
      [Eff.sendUser userId
        ("Anketani to\x27ldirish uchun [shu yerga bosing](" ++ link ++ ")")]
  | none => [Eff.sendUser userId anketaTemplateText]

/-- `createOrder` (part_005:1849-1877): insert with serial id, default status
`awaiting_payment`, then re-sync the conversation step. -/
def createOrder (db : Db) (orderType userId : String) (amount : Nat)
    (adId : Option Nat) (status : Option String) : Db × Nat :=
  let nextStatus := status.getD "awaiting_payment"
  let id := db.nextOrderId
  let row : OrderRow := ⟨id, orderType, nextStatus, userId, amount, adId⟩
  let db1 : Db := { db with orders := db.orders ++ [row], nextOrderId := id + 1 }
  let db2 := (syncUserCurrentStepFromOrderState db1 (some userId)
    (some orderType) (some nextStatus)).1
  (db2, id)

/-- `ensureAdOrderAwaitingGender` (part_005:1246-1252). -/
def ensureAdOrderAwaitingGender (db : Db) (orderId : Nat) : Db :=
  let db1 := updateOrderStatus db orderId "awaiting_gender"
  (syncUserCurrentStepFromOrderId db1 orderId).1

/-- `handleAdPaymentApproved` (part_005:3093-3126): advance a paid (or free)
ad order to content collection. -/
def handleAdPaymentApproved (cfg : FlowCfg) (db : Db) (orderId : Nat) :
    Db × List Eff :=
  match findOrder db orderId with
  | none => (db, [])
  | some o =>
      if o.orderType ≠ "ad" then (db, [])
      else
        let pr := getOrCreateUserProfile db o.userId
        let db1 := pr.1
        let profile := pr.2
        match resolveProfileGender profile.gender with
        | none =>
            let db2 := ensureAdOrderAwaitingGender db1 o.id
            (db2, [Eff.sendUser o.userId "Ayolmisiz yoki erkak?"])
        | some gender =>
            let db2 :=
              if profile.gender ≠ some gender then updateUserGender db1 o.userId gender
              else db1
            let db3 := updateOrderStatus db2 o.id "awaiting_content"
            let db4 := (setUserCurrentStep db3 o.userId "awaiting_candidate_media" none).1
            (db4, sendPostingTemplateEffs cfg o.userId gender
              ++ [Eff.sendUser o.userId "Keyin 2 ta rasm va 1 ta yumaloq video yuboring."])

/-- The `awaiting_gender` reply branch of `handleOrderFlow`
(part_005:1667-1714). -/
def handleAwaitingGenderReply (cfg : FlowCfg) (db : Db) (senderId text : String)
    (negative : Bool) (o : OrderRow) : Db × List Eff × Bool :=
  let gender := parseGender text
  if negative then
    let db1 := updateOrderStatus db o.id "cancelled"
    let db2 := (setUserCurrentStep db1 senderId "idle" none).1
    (db2, [Eff.sendUser senderId "Mayli, bekor qildim."], true)
  else
    match gender with
    | none => (db, [Eff.sendUser senderId "Ayolmisiz yoki erkak?"], true)
    | some g =>
        let pr := getOrCreateUserProfile db senderId
        let db1 := pr.1
        let profile := pr.2
        let db2 := updateUserGender db1 profile.userId g
        let amount := computeAdPrice g profile.adCount
        let nextStatus := if amount = 0 then "awaiting_content" else "awaiting_payment"
        let db3 := updateOrderAmountStatus db2 o.id amount nextStatus
        let db4 := (syncUserCurrentStepFromOrderState db3 (some senderId)
          (some o.orderType) (some nextStatus)).1
        if amount = 0 then
          let ar := handleAdPaymentApproved cfg db4 o.id
          (ar.1, Eff.sendUser senderId "Birinchi e\x27lon bepul." :: ar.2, true)
        else
          (db4, [Eff.sendUser senderId (buildAdPriceMessage g profile.adCount amount)], true)

/-- The `awaiting_payment` + affirmative branch of `handleOrderFlow`
(part_005:1739-1761). -/
def confirmPaymentIntent (cfg : FlowCfg) (db : Db) (senderId : String)
    (o : OrderRow) : Db × List Eff × Bool :=
  let db1 := updateOrderStatus db o.id "awaiting_check"
  let db2 := (setUserCurrentStep db1 senderId "awaiting_payment_receipt" none).1
  let effs := [Eff.sendUser senderId (buildPaymentMessage cfg o.amount)]
  if o.orderType = "ad" ∧ 0 < o.amount ∧ o.userId ≠ "" then
    let pr := getOrCreateUserProfile db2 o.userId
    let db3 := pr.1
    let profile := pr.2
    if profile.gender = some "female" ∧ 0 < profile.adCount then
      (db3, effs ++ [Eff.sendUser senderId "Bu keyingi e\x27lon, narxi 90 ming."], true)
    else (db3, effs, true)
  else (db2, effs, true)

/-- The `awaiting_payment` + negative branch of `handleOrderFlow`
(part_005:1763-1771). -/
def cancelOpenOrder (db : Db) (senderId : String) (o : OrderRow) :
    Db × List Eff × Bool :=
  let db1 := updateOrderStatus db o.id "cancelled"
  let db2 := (setUserCurrentStep db1 senderId "idle" none).1
  (db2, [Eff.sendUser senderId "Mayli, bekor qildim."], true)

/-- The order-creation tail of `handleOrderFlow` (part_005:1773-1846):
contact, vip and ad intents create their orders. -/
def handleOrderFlowTail (cfg : FlowCfg) (db : Db) (senderId : String)
    (contactIntent : Option Nat) (vipIntent adIntent : Bool) :
    Db × List Eff × Bool :=
  match contactIntent with
  | some adId =>
      let r := createOrder db "contact" senderId contactPrice (some adId) none
      (r.1, [Eff.sendUser senderId ("Narxi " ++ formatAmount contactPrice
        ++ ". To\x27lovdan keyin kontakt va 1 ta rasm beriladi. Olasizmi?")], true)
  | none =>
      if vipIntent then
        let r := createOrder db "vip" senderId vipPrice none none
        (r.1, [Eff.sendUser senderId ("Oyiga " ++ formatAmount vipPrice
          ++ ". Olasizmi?")], true)
      else if adIntent then
        let pr := getOrCreateUserProfile db senderId
        let db1 := pr.1
        let profile := pr.2
        if profile.gender = none ∨ profile.gender = some "" then
          let r := createOrder db1 "ad" senderId 0 none (some "awaiting_gender")
          (r.1, [Eff.sendUser senderId "Ayolmisiz yoki erkak?"], true)
        else
          let g := profile.gender.getD ""
          let amount := computeAdPrice g profile.adCount
          let status := if amount = 0 then "awaiting_content" else "awaiting_payment"
          let r := createOrder db1 "ad" senderId amount none (some status)
          if amount = 0 then
            let ar := handleAdPaymentApproved cfg r.1 r.2
            (ar.1, Eff.sendUser senderId "Birinchi e\x27lon bepul." :: ar.2, true)
          else
            (r.1, [Eff.sendUser senderId (buildAdPriceMessage g profile.adCount amount)], true)
      else (db, [], false)

/-- `handleOrderFlow` (part_005:1635-1847).  The regex-based digit extraction
feeding `parseContactIntent` is supplied as `extractedAdId` (see
`parseContactIntentM`); every other classifier is computed from the text. -/
def handleOrderFlow (cfg : FlowCfg) (db : Db) (senderId incomingText : String)
    (extractedAdId : Option Nat) : Db × List Eff × Bool :=
  let text := trimS incomingText
  if text = "" then (db, [], false)
  else if isMediaResetCommand text then
    match getOpenAdOrder db senderId with
    | none => (db, [], false)
    | some openOrder =>
        let db1 := clearOrderMedia db senderId openOrder.id
        (db1, [Eff.sendUser senderId
          "Media tozalandi. 2 ta rasm va 1 ta video yuboring."], true)
  else
    let affirmative := isAffirmative text
    let negative := isNegative text
    let contactIntent := parseContactIntentM text extractedAdId
    let vipIntent := isVipIntent text
    let adIntent := isAdIntent text
    let openOrder := getLatestOpenOrder db senderId
    let db := (resolveCurrentStep db senderId openOrder).1
    let adBlock : Option (Db × List Eff × Bool) :=
      match openOrder with
      | some o =>
          if o.orderType = "ad" then
            if o.status = "awaiting_gender" then
              some (handleAwaitingGenderReply cfg db senderId text negative o)
            else if (o.status = "awaiting_payment" ∨ o.status = "awaiting_check")
                ∧ adIntent then
              some (db, [Eff.sendUser senderId
                "To\x27lovni yakunlaymiz, keyin davom etamiz."], true)
            else if (o.status = "awaiting_content" ∨ o.status = "ready_to_publish"
                ∨ o.status = "payment_submitted") ∧ adIntent then
              some (db, [Eff.sendUser senderId
                "Joriy e\x27lon jarayoni davom etyapti."], true)
            else none
          else none
      | none => none
    match adBlock with
    | some r => r
    | none =>
        let payBlock : Option (Db × List Eff × Bool) :=
          match openOrder with
          | some o =>
              if o.status = "awaiting_payment" ∧ affirmative then
                some (confirmPaymentIntent cfg db senderId o)
              else if o.status = "awaiting_payment" ∧ negative then
                some (cancelOpenOrder db senderId o)
              else none
          | none => none
        match payBlock with
        | some r => r
        | none => handleOrderFlowTail cfg db senderId contactIntent vipIntent adIntent

end MN

namespace MN

/-! ### MediaRouter (part_005:2484-2502, 2522-2833, 2947-2982)

`resolveMediaType` (part_005:2697-2741) classifies transport metadata
(`MessageMediaPhoto`, document attributes, mime types); its result is the
`mediaType` argument here.  The schema-readiness probe outcome is the
`archiveReady` flag of the config (section on the readiness guard below
models the probe itself). -/

/-- Routing-relevant transport configuration of `TelegramService`
(group/topic ids reduced to their configured/unset flag, which is all the
control flow consumes). -/
structure MediaCfg where
  adminGroup : Bool
  storageGroup : Bool
  paymentsTopic : Bool
  photosTopic : Bool
  videosTopic : Bool
  archiveReady : Bool
deriving Repr, DecidableEq

/-- `candidateStepSet` (part_005:133-137). -/
def candidateStepSet : List String :=
  ["awaiting_candidate_media", "candidate_media_ready", "awaiting_publish_review"]

/-- `getAdMediaCounts` (part_005:2484-2502): photo count, video count, and
the 2-photos + 1-video readiness flag. -/
def getAdMediaCounts (db : Db) (userId : String) (orderId : Option Nat) :
    Nat × Nat × Bool :=
  let rows := db.media.filter (fun m =>
    decide (m.userId = userId) &&
      (match orderId with
       | some i => decide (m.orderId = some i)
       | none => true))
  let photos := (rows.filter (fun m => decide (m.mediaType = "photo"))).length
  let videos := (rows.filter (fun m => decide (m.mediaType = "video"))).length
  (photos, videos, decide (2 ≤ photos) && decide (1 ≤ videos))

/-- `storeUserMedia` (part_005:2947-2982): skipped for a missing message id;
the inserted row is linked to the current open ad order. -/
def storeUserMedia (db : Db) (userId : String) (messageId : Option Nat)
    (mediaType : String) : Db :=
  match messageId with
  | none => db
  | some mid =>
      let openAdOrder := getOpenAdOrder db userId
      { db with media := db.media
          ++ [⟨userId, mediaType, openAdOrder.map (fun o => o.id), mid⟩] }

/-- `syncCandidateMediaCurrentStep` (part_005:2759-2766). -/
def syncCandidateMediaCurrentStep (db : Db) (userId : String) (orderId : Nat) : Db :=
  let counts := getAdMediaCounts db userId (some orderId)
  if counts.2.2 then (setUserCurrentStep db userId "candidate_media_ready" none).1
  else (setUserCurrentStep db userId "awaiting_candidate_media" none).1

/-- `handlePaymentReceiptMedia` (part_005:2768-2833); the `Bool` result is
the handled flag of the source. -/
def handlePaymentReceiptMedia (cfg : MediaCfg) (db : Db)
    (senderId _incomingText mediaType : String) (openOrder : OrderRow) :
    Db × List Eff × Bool :=
  if !cfg.paymentsTopic then (db, [], false)
  else if ¬ (openOrder.status = "awaiting_payment" ∨ openOrder.status = "awaiting_check"
      ∨ openOrder.status = "payment_submitted") then
    (db, [], false)
  else if mediaType ≠ "photo" then
    let sr := setUserCurrentStep db senderId "awaiting_payment_receipt" none
    (sr.1, [Eff.sendUser senderId
      "To\x27lov cheki rasm bo\x27lishi kerak. Iltimos, chekni rasm ko\x27rinishida yuboring."], true)
  else
    let db1 := updateOrderStatus db openOrder.id "payment_submitted"
    let db2 := (setUserCurrentStep db1 senderId "payment_receipt_submitted" none).1
    let adNote :=
      if openOrder.orderType = "ad" then
        [Eff.sendUser senderId "To\x27lov tushgach, anketangizni yuborasiz."]
      else []
    (db2, [Eff.forwardPaymentsTopic, Eff.createTask "payment",
      Eff.analyzeImage "payment_receipt"] ++ adNote, true)

/-- The accepted-photo/video tail of `forwardIncomingMedia`
(part_005:2607-2694). -/
def acceptIncomingMedia (cfg : MediaCfg) (db : Db)
    (senderId mediaType : String) (messageId : Option Nat)
    (openAdOrder : Option OrderRow) (currentStep : String) : Db × List Eff :=
  if mediaType = "photo" then
    let fwd := if cfg.photosTopic then [Eff.forwardPhotosTopic] else []
    let db1 := storeUserMedia db senderId messageId "photo"
    let db2 :=
      match openAdOrder with
      | some oa => syncCandidateMediaCurrentStep db1 senderId oa.id
      | none => db1
    let analyze :=
      if currentStep ∈ candidateStepSet then [Eff.analyzeImage "candidate_photo"]
      else []
    (db2, fwd ++ [Eff.blurAttempt] ++ analyze)
  else if mediaType = "video" then
    let fwd := if cfg.videosTopic then [Eff.forwardVideosTopic] else []
    let db1 := storeUserMedia db senderId messageId "video"
    let db2 :=
      match openAdOrder with
      | some oa => syncCandidateMediaCurrentStep db1 senderId oa.id
      | none => db1
    let ack :=
      if currentStep ∈ candidateStepSet then
        [Eff.sendUser senderId
          "Video qabul qilindi. AI tahlil uchun qo\x27shimcha rasm ham yuboring."]
      else []
    (db2, fwd ++ ack)
  else (db, [])

/-- `forwardIncomingMedia` (part_005:2522-2695): route an inbound attachment
to the payment-receipt pipeline, the candidate-media pipeline, or bounce it.
A `false` `archiveReady` makes `ensureMediaArchiveSchemaReadiness` throw;
the effect `Eff.readinessFail` stands for that raised error (caught by the
message handler, which notifies the user). -/
def forwardIncomingMedia (cfg : MediaCfg) (db : Db)
    (senderId mediaType incomingText : String) (messageId : Option Nat) :
    Db × List Eff :=
  if ¬ (cfg.adminGroup ∨ cfg.storageGroup) then (db, [])
  else
    let openOrder := getLatestOpenOrder db senderId
    let rc := resolveCurrentStep db senderId openOrder
    let db1 := rc.1
    let currentStep := rc.2
    let expectsPaymentReceipt :=
      currentStep = "awaiting_payment_receipt" ∨ isPaymentEvidence incomingText = true
    let paymentResult : Option (Db × List Eff) :=
      match openOrder with
      | some o =>
          if expectsPaymentReceipt then
            let hr := handlePaymentReceiptMedia cfg db1 senderId incomingText mediaType o
            if hr.2.2 then some (hr.1, hr.2.1) else none
          else none
      | none => none
    match paymentResult with
    | some r => r
    | none =>
        if mediaType = "sticker" ∨ mediaType = "unsupported" then
          if currentStep ∈ candidateStepSet then
            let sr := setUserCurrentStep db1 senderId "awaiting_candidate_media" none
            (sr.1, [Eff.sendUser senderId
              "Rasm yuboring. Sticker yoki boshqa turdagi fayl tahlil qilinmaydi."])
          else (db1, [])
        else if ¬ cfg.archiveReady then (db1, [Eff.readinessFail])
        else
          match getOpenAdOrder db1 senderId with
          | some openAdOrder =>
              if ¬ (openAdOrder.status = "payment_submitted"
                  ∨ openAdOrder.status = "awaiting_content"
                  ∨ openAdOrder.status = "ready_to_publish") then
                if openAdOrder.status = "awaiting_gender" then
                  (db1, [Eff.sendUser senderId "Ayolmisiz yoki erkak?"])
                else
                  (db1, [Eff.sendUser senderId "Avval to\x27lovni yakunlaymiz."])
              else
                let counts := getAdMediaCounts db1 senderId (some openAdOrder.id)
                if mediaType = "photo" ∧ 2 ≤ counts.1 then
                  (db1, [Eff.sendUser senderId "2 ta rasm yetarli. Ortiqcha yubormang."])
                else if mediaType = "video" ∧ 1 ≤ counts.2.1 then
                  (db1, [Eff.sendUser senderId "1 ta video yetarli. Ortiqcha yubormang."])
                else
                  acceptIncomingMedia cfg db1 senderId mediaType messageId
                    (some openAdOrder) currentStep
          | none =>
              acceptIncomingMedia cfg db1 senderId mediaType messageId none currentStep

end MN

namespace MN

/-! ### ReplyDebouncer and EscalationController (part_005:49-56, 106-107,
691-935, 1348-1415, 1615-1633)

Per-user state: the pending buffer (`pendingReplies`), the monotone reply
token (`replyTokens`) and the single active delay timer.  The timer is the
`Option Nat` holding the token its callback will fire with; `clearTimeout`
on re-queue is the overwrite of that slot.  Token checks at suspension
points observe the live token value through an oracle `obs : Nat → Nat`
(checkpoint index to observed token), so that concurrent token bumps
between suspension points are expressible; the sequential trace semantics
instantiates it with the constant current value. -/

/-- `PendingReply` (part_005:49-56), reduced to the fields the reply path
reads (`messages`, `token`). -/
structure Pending where
  messages : List String
  token : Nat
deriving Repr, DecidableEq

structure BufState where
  token : Nat
  pending : Option Pending
  timer : Option Nat
deriving Repr, DecidableEq

def initBufState : BufState := ⟨0, none, none⟩

/-- Side effects of the buffered-reply path. `aiCall` is the single
`chat.sendMessage` call to the AI collaborator; `escalatePause`/`setStep`/
`createTask` are the effects of `escalateToHuman`; `typing` and `sendFrag`
are the per-fragment typing simulation and message send. -/
inductive BEff where
  | markRead
  | aiCall (input : String)
  | typing
  | sendFrag (text : String)
  | pauseAi
  | setStep (step : String)
  | createTask (taskType : String)
  | warnOnly
deriving Repr, DecidableEq

/-- `nextReplyToken` (part_005:731-735). -/
def nextReplyToken (s : BufState) : BufState × Nat :=
  let next := s.token + 1
  ({ s with token := next }, next)

/-- `queueBufferedReply` (part_005:691-729): bump the token, append the
trimmed fragment, cancel and restart the timer. -/
def queueBufferedReply (s : BufState) (content : String) : BufState :=
  let r := nextReplyToken s
  let s1 := r.1
  let token := r.2
  let msgs :=
    match s1.pending with
    | some p => p.messages
    | none => []
  let trimmed := trimS content
  let msgs1 := if trimmed ≠ "" then msgs ++ [trimmed] else msgs
  { s1 with pending := some ⟨msgs1, token⟩, timer := some token }

/-- `isReplyTokenActive` (part_005:867-869), against an observed live token
value. -/
def isReplyTokenActive (observed token : Nat) : Bool := observed == token

/-- `minFragmentChars` / `maxFragmentChars` (part_005:97-98). -/
def minFragmentChars : Nat := 12
def maxFragmentChars : Nat := 200

/-- `isNumericOnlyLine` (part_005:933-936). -/
def isNumericOnlyLine (value : String) : Bool :=
  let compact := value.data.filter (fun c => !c.isWhitespace)
  compact.all (fun c => c.isDigit) && decide (8 ≤ compact.length)

/-- The sentence split `line.split(/(?<=[.!?])\s+/)` (part_005:888): cut at
whitespace that follows a sentence-final punctuation mark.  Splitting at
every such whitespace character instead of at the head of each run yields
the same sentences after the per-sentence `trim` the caller applies. -/
def splitSentencesGo : List Char → List Char → List (List Char) → List (List Char)
  | [], cur, acc => acc ++ [cur.reverse]
  | c :: cs, cur, acc =>
      if c.isWhitespace then
        match cur with
        | p :: _ =>
            if p = '.' ∨ p = '!' ∨ p = '?' then
              splitSentencesGo cs [] (acc ++ [cur.reverse])
            else splitSentencesGo cs (c :: cur) acc
        | [] => splitSentencesGo cs (c :: cur) acc
      else splitSentencesGo cs (c :: cur) acc

def splitSentences (l : List Char) : List String :=
  (splitSentencesGo l [] []).map (fun cs => (⟨cs⟩ : String))

/-- `mergeShortFragments` (part_005:912-931). -/
def mergeShortFragments (segments : List String) : List String :=
  segments.foldl
    (fun merged segment =>
      if segment = "" then merged
      else
        let numeric := isNumericOnlyLine segment
        match merged.getLast? with
        | some previous =>
            if !numeric && !isNumericOnlyLine previous
                && decide (segment.data.length < minFragmentChars)
                && decide (previous.data.length + 1 + segment.data.length ≤ maxFragmentChars) then
              merged.dropLast ++ [previous ++ " " ++ segment]
            else merged ++ [segment]
        | none => merged ++ [segment])
    []

/-- The per-line sentence accumulation of `splitResponse` (part_005:888-906):
fold sentences into buffers of at most `maxFragmentChars`. -/
def accumulateSentences (sentences : List String) : List String × String :=
  sentences.foldl
    (fun (st : List String × String) sentence =>
      let trimmed := trimS sentence
      if trimmed = "" then st
      else
        let candidate := if st.2 = "" then trimmed else st.2 ++ " " ++ trimmed
        if maxFragmentChars < candidate.data.length ∧ st.2 ≠ "" then
          (st.1 ++ [st.2], trimmed)
        else (st.1, candidate))
    ([], "")

/-- `splitResponse` (part_005:871-910). -/
def splitResponse (text : String) : List String :=
  let normalized := trimS ⟨stripCr text.data⟩
  if normalized = "" then []
  else
    let lines := ((splitOnChar '\n' normalized.data).map
      (fun cs => trimS ⟨cs⟩)).filter (fun l => l ≠ "")
    let segments := lines.foldl
      (fun segs line =>
        if isNumericOnlyLine line then segs ++ [line]
        else
          let sb := accumulateSentences (splitSentences line.data)
          if sb.2 ≠ "" then segs ++ sb.1 ++ [sb.2] else segs ++ sb.1)
      []
    mergeShortFragments segments

/-- The fragment loop of `sendHumanizedResponse` (part_005:837-859): before
each typing delay and again before each send the loop re-checks
`isReplyTokenActive`; `obs k` is the live token value at checkpoint `k`.
Aborting returns immediately (`return` in the source). -/
def sendFragments (token : Nat) (obs : Nat → Nat) :
    List String → Nat → List BEff
  | [], _ => []
  | f :: fs, k =>
      if !isReplyTokenActive (obs k) token then []
      else if !isReplyTokenActive (obs (k + 1)) token then [BEff.typing]
      else BEff.typing :: BEff.sendFrag f :: sendFragments token obs fs (k + 2)

/-- `sendHumanizedResponse` (part_005:818-865) as its effect list (no
`parseMode`, as on the buffered-reply path). -/
def sendHumanizedEffs (responseText : String) (token : Nat) (obs : Nat → Nat) :
    List BEff :=
  let normalized := trimS responseText
  if normalized = "" then []
  else
    let fragments := splitResponse normalized
    if fragments = [] then []
    else sendFragments token obs fragments 0

/-- Collaborator context of `processBufferedReply`: whether the Gemini model
is initialized, whether the problems topic is configured (gates
`escalateToHuman`), the AI collaborator itself, and the open-ad-order
dependent template-link interception (`handleTemplateLinkAssistantOutput`,
part_005:1163-1192), abstracted as a predicate on the response text. -/
structure AiCtx where
  modelConfigured : Bool
  problemsTopic : Bool
  ai : String → String
  templateHandled : String → Bool

/-- `escalateToHuman` (part_005:1383-1415) as its effect list: without a
configured problems topic it only logs; otherwise it pauses the AI
(`pauseAiForUser`), persists step `escalated_to_admin`, and creates the
escalation admin task. -/
def escalateEffs (ctx : AiCtx) : List BEff :=
  if ctx.problemsTopic then
    [BEff.pauseAi, BEff.setStep "escalated_to_admin", BEff.createTask "escalation"]
  else [BEff.warnOnly]

/-- `processBufferedReply` (part_005:737-816). -/
def processBufferedReply (ctx : AiCtx) (s : BufState) (token : Nat)
    (obs : Nat → Nat) : BufState × List BEff :=
  match s.pending with
  | none => (s, [])
  | some pending =>
      if pending.token ≠ token then (s, [])
      else
        let s1 := { s with pending := none }
        if !ctx.modelConfigured then (s1, [])
        else
          let combinedMessage := trimS (joinNl pending.messages)
          if combinedMessage = "" then (s1, [])
          else if shouldEscalateLocally combinedMessage then
            (s1, BEff.markRead :: escalateEffs ctx)
          else
            let responseText := ctx.ai combinedMessage
            if trimS responseText = "" then
              (s1, [BEff.markRead, BEff.aiCall combinedMessage])
            else if isEscalationResponse responseText then
              (s1, BEff.markRead :: BEff.aiCall combinedMessage :: escalateEffs ctx)
            else if ctx.templateHandled responseText then
              (s1, [BEff.markRead, BEff.aiCall combinedMessage])
            else
              (s1, [BEff.markRead, BEff.aiCall combinedMessage]
                ++ sendHumanizedEffs responseText token obs)

/-- `sendAdminResponse` (part_005:1615-1633): bump the reply token, then
deliver the scripted text through `sendHumanizedResponse` under the new
token. -/
def sendAdminResponse (s : BufState) (text : String) : BufState × List BEff :=
  let r := nextReplyToken s
  let s1 := r.1
  let token := r.2
  (s1, sendHumanizedEffs text token (fun _ => s1.token))

/-- Per-user events of the debouncer: an inbound text being buffered, the
buffer timer firing, and a scripted/admin-initiated send. -/
inductive BotEvent where
  | enqueue (text : String)
  | fire
  | adminSend (text : String)

/-- One event against the per-user state.  `fire` runs the timer callback
scheduled with its captured token (a timer only fires while alive; a
cancelled timer slot was overwritten).  Sequential semantics: suspension
points observe the current token. -/
def stepEvent (ctx : AiCtx) (s : BufState) : BotEvent → BufState × List BEff
  | BotEvent.enqueue text => (queueBufferedReply s text, [])
  | BotEvent.fire =>
      match s.timer with
      | none => (s, [])
      | some t => processBufferedReply ctx { s with timer := none } t (fun _ => s.token)
  | BotEvent.adminSend text => sendAdminResponse s text

def runTrace (ctx : AiCtx) (s : BufState) : List BotEvent → BufState × List BEff
  | [] => (s, [])
  | e :: es =>
      let r := stepEvent ctx s e
      let r2 := runTrace ctx r.1 es
      (r2.1, r.2 ++ r2.2)

/-- The AI-call inputs among a list of effects. -/
def aiInputs (effs : List BEff) : List String :=
  effs.filterMap (fun e =>
    match e with
    | BEff.aiCall input => some input
    | _ => none)

/-- The delivered fragments among a list of effects. -/
def sentFrags (effs : List BEff) : List String :=
  effs.filterMap (fun e =>
    match e with
    | BEff.sendFrag f => some f
    | _ => none)

end MN

namespace MN

/-! ### ModerationQueue (settings.controller.ts:412-819, the
`AdminBotService` callback handlers; identical handlers in
admin-bot.service.ts:384-649)

`adminTasks` rows carry the payload fields the handlers read
(`orderId`/`orderType` parsed from the JSON payload, the publish text, and
whether an admin message was recorded).  Cross-service calls into
`TelegramService` (fulfillment, user sends, media clearing, step re-sync,
audit logging) are recorded as effects; the `orders` status writes of the
reject/reset paths are applied to the task database. -/

structure AdminTask where
  id : Nat
  taskType : String
  status : String
  userId : Option String
  orderId : Option Nat
  orderType : Option String
  payloadText : String
  hasAdminMessage : Bool
deriving Repr, DecidableEq

structure MDb where
  tasks : List AdminTask
  orders : List OrderRow
deriving Repr, DecidableEq

inductive MEff where
  | answer (msg : String)
  | audit (action : String)
  | fulfill (orderType : String) (orderId : Nat)
  | sendUser (userId text : String)
  | clearMedia (userId : String) (orderId : Nat)
  | publishPost (taskId : Nat)
  | resumeAi (userId : String)
  | blockUser (userId : String)
  | syncStep (orderId : Nat)
  | editMessage
deriving Repr, DecidableEq

def findTask (db : MDb) (taskId : Nat) : Option AdminTask :=
  db.tasks.find? (fun t => t.id = taskId)

/-- The conditional status write
`update adminTasks set status=next where id=taskId and status in allowed`
with its affected-row count (`.returning` length in the source). -/
def updateTaskWhereStatusIn (db : MDb) (taskId : Nat) (next : String)
    (allowed : List String) : MDb × Nat :=
  let hit := db.tasks.any (fun t => decide (t.id = taskId ∧ t.status ∈ allowed))
  let tasks := db.tasks.map (fun t =>
    if t.id = taskId ∧ t.status ∈ allowed then { t with status := next } else t)
  (⟨tasks, db.orders⟩, if hit then 1 else 0)

/-- The unconditional status write `update adminTasks set status=next
where id=taskId` used by the media handlers. -/
def updateTaskStatus (db : MDb) (taskId : Nat) (next : String) : MDb :=
  let tasks := db.tasks.map (fun t =>
    if t.id = taskId then { t with status := next } else t)
  ⟨tasks, db.orders⟩

def updateMOrderStatus (db : MDb) (orderId : Nat) (status : String) : MDb :=
  let orders := db.orders.map (fun o =>
    if o.id = orderId then { o with status := status } else o)
  ⟨db.tasks, orders⟩

/-- `handlePaymentCallback` (settings.controller.ts:489-601). -/
def handlePaymentCallback (db : MDb) (action : String) (taskId : Nat) :
    MDb × List MEff :=
  match findTask db taskId with
  | none => (db, [MEff.answer "Task topilmadi."])
  | some task =>
      if task.status = "approved" ∨ task.status = "rejected" then
        (db, [MEff.answer "Allaqachon ishlangan."])
      else
        let nextStatus := if action = "approve" then "approved" else "rejected"
        let ur := updateTaskWhereStatusIn db taskId nextStatus
          ["pending", "posted", "payment_submitted"]
        if ur.2 = 0 then (ur.1, [MEff.answer "Allaqachon ishlangan."])
        else
          let db1 := ur.1
          let responseText :=
            if action = "approve" then "To\x27lov tushdi. Endi ma\x27lumotlarni yuboring."
            else "To\x27lov topilmadi. Iltimos, chekingizni qayta yuboring."
          let fulfillEffs :=
            match task.orderId with
            | some oid =>
                if action = "approve" ∧ (task.orderType = some "contact"
                    ∨ task.orderType = some "vip" ∨ task.orderType = some "ad") then
                  [MEff.fulfill ((task.orderType).getD "") oid]
                else []
            | none => []
          let handledByFlow := fulfillEffs ≠ []
          let rejectState :=
            match task.orderId with
            | some oid =>
                if action = "reject" then
                  (updateMOrderStatus db1 oid "awaiting_payment", [MEff.syncStep oid])
                else (db1, [])
            | none => (db1, [])
          let db2 := rejectState.1
          let notifyEffs :=
            if ¬ handledByFlow ∧ task.userId.isSome then
              [MEff.sendUser (task.userId.getD "") responseText]
            else []
          let statusLabel := if action = "approve" then "Tasdiqlandi" else "Rad etildi"
          let editEffs := if task.hasAdminMessage then [MEff.editMessage] else []
          (db2, fulfillEffs ++ rejectState.2
            ++ [MEff.audit ("payment_" ++ action)] ++ notifyEffs
            ++ [MEff.answer statusLabel] ++ editEffs)

/-- `handleEscalationCallback` (settings.controller.ts:412-487).  Note the
source runs the resume/block side effect before the conditional status
write. -/
def handleEscalationCallback (db : MDb) (taskId : Nat) (action : String) :
    MDb × List MEff :=
  match findTask db taskId with
  | none => (db, [MEff.answer "Task topilmadi."])
  | some task =>
      if task.status = "resolved" ∨ task.status = "blocked" then
        (db, [MEff.answer "Allaqachon ishlangan."])
      else
        match task.userId with
        | none => (db, [MEff.answer "Foydalanuvchi topilmadi."])
        | some uid =>
            let sideEff :=
              if action = "resume" then [MEff.resumeAi uid] else [MEff.blockUser uid]
            let nextStatus := if action = "resume" then "resolved" else "blocked"
            let ur := updateTaskWhereStatusIn db taskId nextStatus ["pending", "posted"]
            if ur.2 = 0 then (ur.1, sideEff ++ [MEff.answer "Allaqachon ishlangan."])
            else
              let statusLabel :=
                if action = "resume" then "AI qaytarildi" else "Foydalanuvchi bloklandi"
              let auditAction :=
                if action = "resume" then "escalation_resume" else "escalation_block"
              (ur.1, sideEff ++ [MEff.audit auditAction, MEff.answer statusLabel,
                MEff.editMessage])

/-- `handleMediaApprove` (settings.controller.ts:656-690): unconditional
status write, success answer and audit entry on every application. -/
def handleMediaApprove (db : MDb) (taskId : Nat) : MDb × List MEff :=
  match findTask db taskId with
  | none => (db, [MEff.answer "Task topilmadi."])
  | some task =>
      let db1 := updateTaskStatus db task.id "media_approved"
      (db1, [MEff.answer "Media tasdiqlandi.", MEff.audit "media_approved"])

/-- `handleMediaReject` (settings.controller.ts:692-740). -/
def handleMediaReject (db : MDb) (taskId : Nat) : MDb × List MEff :=
  match findTask db taskId with
  | none => (db, [MEff.answer "Task topilmadi."])
  | some task =>
      let db1 := updateTaskStatus db task.id "media_rejected"
      let userState :=
        match task.userId with
        | none => (db1, [])
        | some uid =>
            let base := [MEff.sendUser uid
              "Media mos emas. Qaytadan 2 ta rasm va 1 ta video yuboring."]
            match task.orderId with
            | none => (db1, base)
            | some oid =>
                (updateMOrderStatus db1 oid "awaiting_content",
                 base ++ [MEff.clearMedia uid oid, MEff.syncStep oid])
      (userState.1, userState.2
        ++ [MEff.answer "Media rad etildi.", MEff.audit "media_rejected"])

/-- `handleMediaReset` (settings.controller.ts:776-819). -/
def handleMediaReset (db : MDb) (taskId : Nat) : MDb × List MEff :=
  match findTask db taskId with
  | none => (db, [MEff.answer "Task topilmadi."])
  | some task =>
      let userState :=
        match task.userId, task.orderId with
        | some uid, some oid =>
            (updateMOrderStatus db oid "awaiting_content",
             [MEff.clearMedia uid oid,
              MEff.sendUser uid "Media tozalandi. 2 ta rasm va 1 ta video yuboring.",
              MEff.syncStep oid])
        | _, _ => (db, [])
      let db1 := updateTaskStatus userState.1 task.id "media_reset"
      (db1, userState.2 ++ [MEff.answer "Media reset qilindi.", MEff.audit "media_reset"])

/-- The environment `publishAnketaTask` (part_005:2149-2354) runs in:
whether the userbot client is available after the `startUserbot` attempt
(part_005:2154-2157), whether a public or vip channel id is configured
(2159-2162), whether the media-counts probe reports `ready` (2196-2199),
whether the stored media are within the 2-photo/1-video cap (2200-2203),
and whether both channel posts succeed (`isFullyPublished`,
part_005:2323-2324). -/
structure PublishEnv where
  clientAvailable : Bool
  channelsConfigured : Bool
  mediaReady : Bool
  mediaWithinCap : Bool
  fullyPublished : Bool
deriving Repr, DecidableEq

/-- `publishAnketaTask` (part_005:2149-2354) restricted to its adminTasks
outcome: each early return (no client, no channels, media not ready, media
over the cap) leaves the task row untouched and posts nothing; past those,
the channels are posted and the task status is written unconditionally
(`where eq(adminTasks.id, taskId)`, no status guard, part_005:2326-2332) to
`published` or `publish_partial_failed`. -/
def publishAnketaTask (env : PublishEnv) (db : MDb) (taskId : Nat) :
    MDb × List MEff :=
  if env.clientAvailable = false then (db, [])
  else if env.channelsConfigured = false then (db, [])
  else if env.mediaReady = false then (db, [])
  else if env.mediaWithinCap = false then (db, [])
  else
    let db1 := updateTaskStatus db taskId
      (if env.fullyPublished then "published" else "publish_partial_failed")
    (db1, [MEff.publishPost taskId])

/-- `handlePublishCallback` (settings.controller.ts:603-654): after the
already-published / needs-media-approval / empty-text answers it awaits
`publishAnketaTask` and then unconditionally answers success, edits the
admin message and writes the audit log, even when `publishAnketaTask`
returned early without touching the task. -/
def handlePublishCallback (env : PublishEnv) (db : MDb) (taskId : Nat) :
    MDb × List MEff :=
  match findTask db taskId with
  | none => (db, [MEff.answer "Task topilmadi."])
  | some task =>
      if task.status = "published" then
        (db, [MEff.answer "Allaqachon chiqarilgan."])
      else if task.status ≠ "media_approved" then
        (db, [MEff.answer "Avval media tasdiqlang."])
      else if trimS task.payloadText = "" then
        (db, [MEff.answer "Matn topilmadi."])
      else
        let pub := publishAnketaTask env db task.id
        let editEffs := if task.hasAdminMessage then [MEff.editMessage] else []
        (pub.1, pub.2 ++ [MEff.answer "Kanalga chiqarildi."] ++ editEffs
          ++ [MEff.audit "publish"])

end MN

namespace MN

/-! ### SchemaReadinessGuard (media-archive-readiness.ts, and its use sites
part_005:219-240, 1102-1117, 2947-2982)

The probe outcome is the list of discovered archive columns; the cached
positive-readiness flag is `checked` (`mediaArchiveSchemaChecked`). -/

def mediaArchiveRequiredColumns : List String :=
  ["archive_group_id", "archive_topic_id", "archive_message_id"]

/-- `Array.from(new Set(...))`: deduplicate keeping first occurrences
(media-archive-readiness.ts:24). -/
def dedupKeepFirstAux (seen : List String) : List String → List String
  | [] => []
  | x :: xs =>
      if x ∈ seen then dedupKeepFirstAux seen xs
      else x :: dedupKeepFirstAux (x :: seen) xs

def dedupKeepFirst (xs : List String) : List String := dedupKeepFirstAux [] xs

/-- `MediaArchiveReadinessError` restricted to its distinguishing data. -/
structure ReadinessErr where
  missingColumns : List String
deriving Repr, DecidableEq

/-- The missing-column computation of `inspectMediaArchiveSchemaReadiness`
(media-archive-readiness.ts:47-73): required columns not discovered by the
information-schema probe. -/
def inspectMissing (discovered : List String) : List String :=
  mediaArchiveRequiredColumns.filter (fun c => !decide (c ∈ discovered))

/-- `assertMediaArchiveSchemaReadiness` (media-archive-readiness.ts:75-104)
for a probe that answered (connectivity failures are the other error class,
not modelled by this claim). -/
def assertReadiness (discovered : List String) : Except ReadinessErr Unit :=
  let missing := inspectMissing discovered
  if missing = [] then Except.ok ()
  else Except.error ⟨dedupKeepFirst missing⟩

/-- `ensureMediaArchiveSchemaReadiness` (part_005:1102-1117): a cached
positive probe short-circuits; a failed probe resets the cache flag and
rethrows. -/
def ensureReadiness (checked : Bool) (discovered : List String) :
    Bool × Except ReadinessErr Unit :=
  if checked then (true, Except.ok ())
  else
    match assertReadiness discovered with
    | Except.ok _ => (true, Except.ok ())
    | Except.error e => (false, Except.error e)

/-- One runtime media write: `ensureMediaArchiveSchemaReadiness("runtime")`
followed, only on success, by the `userMedia` insert
(part_005:2566, 2627-2635, 2959-2969). -/
def mediaWriteAttempt (checked : Bool) (discovered : List String)
    (media : List MediaRow) (row : MediaRow) :
    Bool × List MediaRow × Option ReadinessErr :=
  let er := ensureReadiness checked discovered
  match er.2 with
  | Except.error e => (er.1, media, some e)
  | Except.ok _ => (er.1, media ++ [row], none)

/-- A sequence of runtime media writes, each with its own probe outcome. -/
def runMediaWrites (checked : Bool) (media : List MediaRow) :
    List (List String × MediaRow) → Bool × List MediaRow
  | [] => (checked, media)
  | (discovered, row) :: rest =>
      let r := mediaWriteAttempt checked discovered media row
      runMediaWrites r.1 r.2.1 rest

/-- `onModuleInit` (part_005:219-240): the startup readiness check rethrows
a `MediaArchiveReadinessError` as a fatal startup error, so the process
refuses to start serving. -/
def onModuleInitStartup (discovered : List String) : Except String Unit :=
  match assertReadiness discovered with
  | Except.ok _ => Except.ok ()
  | Except.error e =>
      Except.error ("Media archive startup blocked: missing migration columns on user_media ("
        ++ String.intercalate ", " e.missingColumns ++ ").")

end MN

namespace MN

/-- Number of rows of `orders` that belong to `userId` and have
`order_type = 'ad'` (any status). Used to state that a flow step does not
insert a second ad order. -/
def adOrderRowCount (db : Db) (userId : String) : Nat :=
  (db.orders.filter (fun o => decide (o.userId = userId ∧ o.orderType = "ad"))).length

/-- Number of rows of `orders` that belong to `userId`, have
`order_type = 'ad'` and an open status (the statuses scanned by
`getOpenAdOrder`). -/
def openAdOrderCount (db : Db) (userId : String) : Nat :=
  (db.orders.filter (fun o =>
    decide (o.userId = userId ∧ o.orderType = "ad" ∧ o.status ∈ openStatuses))).length

end MN

namespace MN

/-- A concrete AI context used for closed evaluations: a configured model, a
configured problems topic, a fixed reply, and no template handling. -/
def c10ctx : AiCtx :=
  ⟨true, true, fun _ => "Yaxshi, kutamiz.", fun _ => false⟩

/-- A media configuration with every transport target configured and the
archive schema ready. -/
def cfgAllM : MediaCfg := ⟨true, true, true, true, true, true⟩

end MN
namespace MN

/-! ## Preservation lemmas

Bookkeeping facts used across the claims: which state components each
operation leaves untouched. -/

@[simp] theorem orders_updateProfileRow (db : Db) (u : String) (f : Profile → Profile) :
    (updateProfileRow db u f).orders = db.orders := rfl

@[simp] theorem orders_getOrCreate (db : Db) (u : String) :
    ((getOrCreateUserProfile db u).1).orders = db.orders := by
  unfold getOrCreateUserProfile
  cases findProfile db u <;> rfl

@[simp] theorem orders_setStep (db : Db) (u n : String) (e : Option String) :
    ((setUserCurrentStep db u n e).1).orders = db.orders := by
  unfold setUserCurrentStep
  cases e <;> simp only [] <;> split <;> first | simp | (split <;> simp)

@[simp] theorem orders_syncState (db : Db) (u t s : Option String) :
    ((syncUserCurrentStepFromOrderState db u t s).1).orders = db.orders := by
  unfold syncUserCurrentStepFromOrderState
  cases u <;> simp

@[simp] theorem orders_syncId (db : Db) (i : Nat) :
    ((syncUserCurrentStepFromOrderId db i).1).orders = db.orders := by
  unfold syncUserCurrentStepFromOrderId
  rcases h : findOrder db i with _ | o
  · rfl
  · simp only []
    split
    · rfl
    · exact orders_syncState _ _ _ _

@[simp] theorem orders_resolve (db : Db) (u : String) (p : Option OrderRow) :
    ((resolveCurrentStep db u p).1).orders = db.orders := by
  unfold resolveCurrentStep
  simp only []
  split
  · simp
  · split
    · exact (orders_setStep _ _ _ _).trans (orders_getOrCreate _ _)
    · simp

@[simp] theorem media_updateProfileRow (db : Db) (u : String) (f : Profile → Profile) :
    (updateProfileRow db u f).media = db.media := rfl

@[simp] theorem media_updateOrderStatus (db : Db) (i : Nat) (st : String) :
    (updateOrderStatus db i st).media = db.media := rfl

@[simp] theorem media_getOrCreate (db : Db) (u : String) :
    ((getOrCreateUserProfile db u).1).media = db.media := by
  unfold getOrCreateUserProfile
  cases findProfile db u <;> rfl

@[simp] theorem media_setStep (db : Db) (u n : String) (e : Option String) :
    ((setUserCurrentStep db u n e).1).media = db.media := by
  unfold setUserCurrentStep
  cases e <;> simp only [] <;> split <;> first | simp | (split <;> simp)

@[simp] theorem media_resolve (db : Db) (u : String) (p : Option OrderRow) :
    ((resolveCurrentStep db u p).1).media = db.media := by
  unfold resolveCurrentStep
  simp only []
  split
  · simp
  · split
    · exact (media_setStep _ _ _ _).trans (media_getOrCreate _ _)
    · simp

@[simp] theorem media_handlePaymentReceipt (cfg : MediaCfg) (db : Db)
    (u tx mt : String) (o : OrderRow) :
    ((handlePaymentReceiptMedia cfg db u tx mt o).1).media = db.media := by
  unfold handlePaymentReceiptMedia
  split
  · rfl
  · split
    · rfl
    · split
      · simp
      · simp

theorem getOpenAdOrder_congr {db1 db2 : Db} (u : String)
    (h : db1.orders = db2.orders) : getOpenAdOrder db1 u = getOpenAdOrder db2 u := by
  simp [getOpenAdOrder, h]

theorem getAdMediaCounts_congr {db1 db2 : Db} (u : String) (oid : Option Nat)
    (h : db1.media = db2.media) :
    getAdMediaCounts db1 u oid = getAdMediaCounts db2 u oid := by
  simp [getAdMediaCounts, h]

theorem length_filter_map_eq (l : List OrderRow) (g : OrderRow → OrderRow)
    (p : OrderRow → Bool) (h : ∀ o, p (g o) = p o) :
    ((l.map g).filter p).length = (l.filter p).length := by
  induction l with
  | nil => rfl
  | cons a l ih =>
      simp only [List.map_cons, List.filter_cons, h a]
      cases p a <;> simp [ih]

theorem adOrderRowCount_congr {db1 db2 : Db} (u : String)
    (h : db1.orders = db2.orders) : adOrderRowCount db1 u = adOrderRowCount db2 u := by
  simp [adOrderRowCount, h]

@[simp] theorem adCount_updateOrderStatus (db : Db) (i : Nat) (st v : String) :
    adOrderRowCount (updateOrderStatus db i st) v = adOrderRowCount db v := by
  unfold adOrderRowCount updateOrderStatus
  apply length_filter_map_eq
  intro o
  by_cases h : o.id = i <;> simp [h]

@[simp] theorem adCount_updateOrderAmountStatus (db : Db) (i a : Nat) (st v : String) :
    adOrderRowCount (updateOrderAmountStatus db i a st) v = adOrderRowCount db v := by
  unfold adOrderRowCount updateOrderAmountStatus
  apply length_filter_map_eq
  intro o
  by_cases h : o.id = i <;> simp [h]

@[simp] theorem adCount_clearOrderMedia (db : Db) (u : String) (i : Nat) (v : String) :
    adOrderRowCount (clearOrderMedia db u i) v = adOrderRowCount db v := rfl

theorem adCount_of_orders_eq {db1 db2 : Db} (v : String) (h : db1.orders = db2.orders) :
    adOrderRowCount db1 v = adOrderRowCount db2 v := adOrderRowCount_congr v h

@[simp] theorem adCount_setStep (db : Db) (u n : String) (e : Option String) (v : String) :
    adOrderRowCount ((setUserCurrentStep db u n e).1) v = adOrderRowCount db v :=
  adCount_of_orders_eq v (orders_setStep db u n e)

@[simp] theorem adCount_getOrCreate (db : Db) (u v : String) :
    adOrderRowCount ((getOrCreateUserProfile db u).1) v = adOrderRowCount db v :=
  adCount_of_orders_eq v (orders_getOrCreate db u)

@[simp] theorem adCount_syncState (db : Db) (u t s : Option String) (v : String) :
    adOrderRowCount ((syncUserCurrentStepFromOrderState db u t s).1) v = adOrderRowCount db v :=
  adCount_of_orders_eq v (orders_syncState db u t s)

@[simp] theorem adCount_syncId (db : Db) (i : Nat) (v : String) :
    adOrderRowCount ((syncUserCurrentStepFromOrderId db i).1) v = adOrderRowCount db v :=
  adCount_of_orders_eq v (orders_syncId db i)

@[simp] theorem adCount_resolveStep (db : Db) (u : String) (p : Option OrderRow) (v : String) :
    adOrderRowCount ((resolveCurrentStep db u p).1) v = adOrderRowCount db v :=
  adCount_of_orders_eq v (orders_resolve db u p)

@[simp] theorem adCount_updateProfileRow (db : Db) (u : String) (f : Profile → Profile) (v : String) :
    adOrderRowCount (updateProfileRow db u f) v = adOrderRowCount db v :=
  adCount_of_orders_eq v (orders_updateProfileRow db u f)

@[simp] theorem adCount_updateUserGender (db : Db) (u g v : String) :
    adOrderRowCount (updateUserGender db u g) v = adOrderRowCount db v :=
  adCount_of_orders_eq v (orders_updateProfileRow db u _)

@[simp] theorem adCount_ensureAwaitingGender (db : Db) (i : Nat) (v : String) :
    adOrderRowCount (ensureAdOrderAwaitingGender db i) v = adOrderRowCount db v := by
  unfold ensureAdOrderAwaitingGender
  simp

@[simp] theorem adCount_handleAdPaymentApproved (cfg : FlowCfg) (db : Db) (i : Nat) (v : String) :
    adOrderRowCount ((handleAdPaymentApproved cfg db i).1) v = adOrderRowCount db v := by
  unfold handleAdPaymentApproved
  rcases h : findOrder db i with _ | o
  · rfl
  · simp only []
    split
    · rfl
    · rcases hg : resolveProfileGender (getOrCreateUserProfile db o.userId).2.gender with _ | g
      · simp
      · simp only []
        split <;> simp

theorem adCount_createOrder (db : Db) (t u : String) (a : Nat)
    (adId : Option Nat) (s : Option String) (v : String) (ht : t ≠ "ad") :
    adOrderRowCount ((createOrder db t u a adId s).1) v = adOrderRowCount db v := by
  unfold createOrder
  simp only []
  rw [adCount_of_orders_eq v (orders_syncState _ _ _ _)]
  simp [adOrderRowCount, List.filter_append, ht]

@[simp] theorem adCount_handleAwaitingGenderReply (cfg : FlowCfg) (db : Db)
    (u tx : String) (neg : Bool) (o : OrderRow) (v : String) :
    adOrderRowCount ((handleAwaitingGenderReply cfg db u tx neg o).1) v = adOrderRowCount db v := by
  unfold handleAwaitingGenderReply
  split
  · simp
  · rcases parseGender tx with _ | g
    · simp
    · simp only []
      split <;> simp

@[simp] theorem adCount_confirmPaymentIntent (cfg : FlowCfg) (db : Db)
    (u : String) (o : OrderRow) (v : String) :
    adOrderRowCount ((confirmPaymentIntent cfg db u o).1) v = adOrderRowCount db v := by
  unfold confirmPaymentIntent
  split
  · simp only []
    split <;> simp
  · simp

@[simp] theorem adCount_cancelOpenOrder (db : Db) (u : String) (o : OrderRow) (v : String) :
    adOrderRowCount ((cancelOpenOrder db u o).1) v = adOrderRowCount db v := by
  unfold cancelOpenOrder
  simp

@[simp] theorem adCount_tail_no_ad (cfg : FlowCfg) (db : Db) (u : String)
    (ci : Option Nat) (vip : Bool) (v : String) :
    adOrderRowCount ((handleOrderFlowTail cfg db u ci vip false).1) v = adOrderRowCount db v := by
  unfold handleOrderFlowTail
  rcases ci with _ | adId
  · simp only []
    split
    · exact adCount_createOrder db "vip" u vipPrice none none v (by decide)
    · rfl
  · exact adCount_createOrder db "contact" u contactPrice (some adId) none v (by decide)

end MN
namespace MN

/-- Claim C3 (amended). When the latest open order of the user is an open ad
order, handling any incoming text message through `handleOrderFlow` never
inserts a second ad order row for that user: the ad order row count is
unchanged. (The unrestricted claim is refuted by `C3_counterexample`: the
guard inspects only the latest open order of any type, so an open ad order
hidden behind a newer vip order is missed.) -/
theorem C3_amended (cfg : FlowCfg) (db : Db) (u text : String) (aid : Option Nat) (o : OrderRow)
    (hlatest : getLatestOpenOrder db u = some o)
    (htype : o.orderType = "ad") (hopen : o.status ∈ openStatuses) :
    adOrderRowCount ((handleOrderFlow cfg db u text aid).1) u = adOrderRowCount db u := by
  simp only [openStatuses, List.mem_cons, List.not_mem_nil, or_false] at hopen
  by_cases h0 : trimS text = ""
  · simp [handleOrderFlow, h0]
  · by_cases h1 : isMediaResetCommand (trimS text) = true
    · rcases hr : getOpenAdOrder db u with _ | oa <;>
        simp [handleOrderFlow, h0, h1, hr]
    · rw [Bool.not_eq_true] at h1
      by_cases hAd : isAdIntent (trimS text) = true
      · rcases hopen with h|h|h|h|h|h <;>
          simp [handleOrderFlow, h0, h1, hlatest, htype, h, hAd]
      · rw [Bool.not_eq_true] at hAd
        by_cases haff : isAffirmative (trimS text) = true
        · rcases hopen with h|h|h|h|h|h <;>
            simp [handleOrderFlow, h0, h1, hlatest, htype, h, hAd, haff]
        · rw [Bool.not_eq_true] at haff
          by_cases hneg : isNegative (trimS text) = true
          · rcases hopen with h|h|h|h|h|h <;>
              simp [handleOrderFlow, h0, h1, hlatest, htype, h, hAd, haff, hneg]
          · rw [Bool.not_eq_true] at hneg
            rcases hopen with h|h|h|h|h|h <;>
              simp [handleOrderFlow, h0, h1, hlatest, htype, h, hAd, haff, hneg]

end MN

namespace MN

@[simp] theorem aiInputs_nil : aiInputs [] = [] := rfl

@[simp] theorem aiInputs_append (a b : List BEff) :
    aiInputs (a ++ b) = aiInputs a ++ aiInputs b := by
  simp [aiInputs, List.filterMap_append]

@[simp] theorem aiInputs_markRead (l : List BEff) :
    aiInputs (BEff.markRead :: l) = aiInputs l := rfl

@[simp] theorem aiInputs_aiCall (i : String) (l : List BEff) :
    aiInputs (BEff.aiCall i :: l) = i :: aiInputs l := rfl

theorem aiInputs_sendFragments (t : Nat) (obs : Nat → Nat) (frags : List String) (k : Nat) :
    aiInputs (sendFragments t obs frags k) = [] := by
  induction frags generalizing k with
  | nil => rfl
  | cons f fs ih =>
      unfold sendFragments
      split
      · rfl
      · split
        · rfl
        · simpa [aiInputs, List.filterMap_cons] using ih (k + 2)

theorem aiInputs_sendHumanized (r : String) (t : Nat) (obs : Nat → Nat) :
    aiInputs (sendHumanizedEffs r t obs) = [] := by
  unfold sendHumanizedEffs
  simp only []
  split
  · rfl
  · split
    · rfl
    · exact aiInputs_sendFragments _ _ _ _

theorem aiInputs_escalate (ctx : AiCtx) : aiInputs (escalateEffs ctx) = [] := by
  unfold escalateEffs
  split <;> rfl

theorem fires_on_dead_timer (ctx : AiCtx) (s : BufState) (k : Nat)
    (ht : s.timer = none) :
    runTrace ctx s (List.replicate k BotEvent.fire) = (s, []) := by
  induction k with
  | zero => rfl
  | succ n ih => simp [List.replicate_succ, runTrace, stepEvent, ht, ih]

theorem aiInputs_processBufferedReply (ctx : AiCtx) (s : BufState) (p : Pending)
    (t : Nat) (obs : Nat → Nat)
    (hp : s.pending = some p) (htok : p.token = t)
    (hm : ctx.modelConfigured = true)
    (hcomb : trimS (joinNl p.messages) ≠ "")
    (hesc : shouldEscalateLocally (trimS (joinNl p.messages)) = false) :
    aiInputs (processBufferedReply ctx s t obs).2 = [trimS (joinNl p.messages)] := by
  subst htok
  unfold processBufferedReply
  rw [hp]
  simp only []
  rw [if_neg (by simp)]
  rw [hm]
  simp only [Bool.not_true, Bool.false_eq_true, if_false]
  rw [if_neg hcomb, if_neg (by simp [hesc])]
  split
  · simp
  · split
    · simp [aiInputs_escalate]
    · split
      · simp
      · simp [aiInputs_sendHumanized]

end MN

namespace MN

theorem processBufferedReply_state (ctx : AiCtx) (s : BufState) (t : Nat)
    (obs : Nat → Nat) :
    (processBufferedReply ctx s t obs).1.timer = s.timer ∧
    (processBufferedReply ctx s t obs).1.token = s.token := by
  unfold processBufferedReply
  rcases hsp : s.pending with _ | p
  · exact ⟨rfl, rfl⟩
  · simp only []
    split
    · exact ⟨rfl, rfl⟩
    · split
      · exact ⟨rfl, rfl⟩
      · split
        · exact ⟨rfl, rfl⟩
        · split
          · exact ⟨rfl, rfl⟩
          · split
            · exact ⟨rfl, rfl⟩
            · split
              · exact ⟨rfl, rfl⟩
              · split
                · exact ⟨rfl, rfl⟩
                · exact ⟨rfl, rfl⟩

theorem runTrace_cons (ctx : AiCtx) (s : BufState) (e : BotEvent) (es : List BotEvent) :
    runTrace ctx s (e :: es)
      = ((runTrace ctx (stepEvent ctx s e).1 es).1,
         (stepEvent ctx s e).2 ++ (runTrace ctx (stepEvent ctx s e).1 es).2) := rfl

theorem stepEvent_enqueue (ctx : AiCtx) (s : BufState) (tx : String) :
    stepEvent ctx s (BotEvent.enqueue tx) = (queueBufferedReply s tx, []) := rfl

theorem stepEvent_fire_some (ctx : AiCtx) (s : BufState) (t : Nat)
    (h : s.timer = some t) :
    stepEvent ctx s BotEvent.fire
      = processBufferedReply ctx { s with timer := none } t (fun _ => s.token) := by
  simp [stepEvent, h]

/-- Claim C4. Two messages enqueued before the per-user debounce timer fires
are answered by exactly one AI call whose input is the trimmed fragments
joined with a newline, regardless of how many further timer fires follow. -/
theorem C4_coalescing (ctx : AiCtx) (a b : String) (k : Nat)
    (hm : ctx.modelConfigured = true)
    (ha : trimS a ≠ "") (hb : trimS b ≠ "")
    (hcomb : trimS (joinNl [trimS a, trimS b]) ≠ "")
    (hesc : shouldEscalateLocally (trimS (joinNl [trimS a, trimS b])) = false) :
    aiInputs (runTrace ctx initBufState
        ([BotEvent.enqueue a, BotEvent.enqueue b]
          ++ List.replicate (k + 1) BotEvent.fire)).2
      = [trimS (joinNl [trimS a, trimS b])] := by
  have h1 : queueBufferedReply initBufState a
      = ⟨1, some ⟨[trimS a], 1⟩, some 1⟩ := by
    simp [queueBufferedReply, nextReplyToken, initBufState, ha]
  have h2 : queueBufferedReply ⟨1, some ⟨[trimS a], 1⟩, some 1⟩ b
      = ⟨2, some ⟨[trimS a, trimS b], 2⟩, some 2⟩ := by
    simp [queueBufferedReply, nextReplyToken, hb]
  rw [List.cons_append, List.cons_append, List.nil_append]
  rw [runTrace_cons, stepEvent_enqueue, h1]
  rw [runTrace_cons, stepEvent_enqueue, h2]
  rw [List.replicate_succ, runTrace_cons, stepEvent_fire_some ctx _ 2 rfl]
  have hst := processBufferedReply_state ctx
    ⟨2, some ⟨[trimS a, trimS b], 2⟩, none⟩ 2
    (fun _ => BufState.token ⟨2, some ⟨[trimS a, trimS b], 2⟩, some 2⟩)
  rw [fires_on_dead_timer ctx _ k hst.1]
  have hai := aiInputs_processBufferedReply ctx
    ⟨2, some ⟨[trimS a, trimS b], 2⟩, none⟩ ⟨[trimS a, trimS b], 2⟩ 2
    (fun _ => BufState.token ⟨2, some ⟨[trimS a, trimS b], 2⟩, some 2⟩)
    rfl rfl hm hcomb hesc
  simp [hai]

end MN

namespace MN

theorem sendFragments_all_stale (t : Nat) (obs : Nat → Nat) (frags : List String)
    (k : Nat) (h : ∀ i, k ≤ i → obs i ≠ t) :
    sendFragments t obs frags k = [] := by
  cases frags with
  | nil => rfl
  | cons f fs =>
      unfold sendFragments
      rw [if_pos]
      simp [isReplyTokenActive, h k (Nat.le_refl k)]

theorem sendFragments_abort_after_first (t : Nat) (obs : Nat → Nat)
    (f : String) (fs : List String) (k : Nat)
    (h1 : obs k = t) (h2 : obs (k + 1) = t)
    (h3 : ∀ i, k + 2 ≤ i → obs i ≠ t) :
    sendFragments t obs (f :: fs) k = [BEff.typing, BEff.sendFrag f] := by
  unfold sendFragments
  rw [if_neg (by simp [isReplyTokenActive, h1])]
  rw [if_neg (by simp [isReplyTokenActive, h2])]
  rw [sendFragments_all_stale t obs fs (k + 2) h3]

/-- Claim C5. Enqueuing a new message bumps the per-user reply token past
any scheduled token; a timer callback whose token is superseded returns with
no side effects; the fragment-send loop re-checks token validity before each
typing delay and before each send, so a reply superseded mid-send stops
after the fragment in flight and a fully superseded reply sends nothing. -/
theorem C5_cancellation :
    (∀ (s : BufState) (text : String), (queueBufferedReply s text).token = s.token + 1) ∧
    (∀ (ctx : AiCtx) (s : BufState) (p : Pending) (t : Nat) (obs : Nat → Nat),
      s.pending = some p → p.token ≠ t →
      processBufferedReply ctx s t obs = (s, [])) ∧
    (∀ (t : Nat) (obs : Nat → Nat) (frags : List String) (k : Nat),
      (∀ i, k ≤ i → obs i ≠ t) → sendFragments t obs frags k = []) ∧
    (∀ (t : Nat) (obs : Nat → Nat) (f : String) (fs : List String) (k : Nat),
      obs k = t → obs (k + 1) = t → (∀ i, k + 2 ≤ i → obs i ≠ t) →
      sendFragments t obs (f :: fs) k = [BEff.typing, BEff.sendFrag f]) := by
  refine ⟨?_, ?_, sendFragments_all_stale, sendFragments_abort_after_first⟩
  · intro s text
    simp [queueBufferedReply, nextReplyToken]
  · intro ctx s p t obs hp hne
    unfold processBufferedReply
    rw [hp]
    simp only []
    rw [if_pos hne]

/-- Claim C8. When the combined buffered text matches the local escalation
keyword list, the buffered-reply processor marks the message read, pauses
automated replies, persists step `escalated_to_admin` and creates an
escalation task, and returns before any AI chat call even though a model is
configured: the AI collaborator receives no input for that turn. -/
theorem C8_escalation_precedence (ctx : AiCtx) (s : BufState) (p : Pending)
    (hp : s.pending = some p) (ht : s.timer = some p.token)
    (hm : ctx.modelConfigured = true) (hpt : ctx.problemsTopic = true)
    (hne : trimS (joinNl p.messages) ≠ "")
    (hesc : shouldEscalateLocally (trimS (joinNl p.messages)) = true) :
    (stepEvent ctx s BotEvent.fire).2
        = [BEff.markRead, BEff.pauseAi, BEff.setStep "escalated_to_admin",
           BEff.createTask "escalation"] ∧
    aiInputs (stepEvent ctx s BotEvent.fire).2 = [] := by
  have hmain : (stepEvent ctx s BotEvent.fire).2
      = [BEff.markRead, BEff.pauseAi, BEff.setStep "escalated_to_admin",
         BEff.createTask "escalation"] := by
    rw [stepEvent_fire_some ctx s p.token ht]
    unfold processBufferedReply
    simp only [hp]
    rw [if_neg (by simp)]
    rw [hm]
    simp only [Bool.not_true, Bool.false_eq_true, if_false]
    rw [if_neg hne, if_pos hesc]
    simp [escalateEffs, hpt]
  exact ⟨hmain, by rw [hmain]; rfl⟩

/-- Claim C10 (amended). `sendAdminResponse` bumps the recipient reply token
before sending, so a previously pending buffered reply can no longer send
any humanized fragment: the later timer fire produces no `sendFrag` effect.
The stale timer callback itself is not short-circuited, because the pending
buffer and its timer are left in place (see `C10_counterexample`): only the
fragment sending is suppressed by the token re-checks. -/
theorem C10_amended (ctx : AiCtx) (s : BufState) (msg : String) (p : Pending)
    (hp : s.pending = some p) (ht : s.timer = some p.token)
    (htk : p.token ≤ s.token) :
    ((sendAdminResponse s msg).1.token = s.token + 1) ∧
    sentFrags ((stepEvent ctx (sendAdminResponse s msg).1 BotEvent.fire).2) = [] := by
  constructor
  · simp [sendAdminResponse, nextReplyToken]
  · have hs1 : (sendAdminResponse s msg).1
        = { s with token := s.token + 1 } := by
      simp [sendAdminResponse, nextReplyToken]
    rw [hs1]
    rw [stepEvent_fire_some ctx { s with token := s.token + 1 } p.token ht]
    unfold processBufferedReply
    simp only [hp]
    rw [if_neg (by simp)]
    split
    · rfl
    · split
      · rfl
      · split
        · unfold escalateEffs
          split <;> rfl
        · split
          · rfl
          · split
            · unfold escalateEffs
              split <;> rfl
            · split
              · rfl
              · have hobs : ∀ i : Nat, 0 ≤ i →
                    (fun _ : Nat => BufState.token { s with token := s.token + 1 }) i
                      ≠ p.token := by
                  intro i _
                  simp only []
                  omega
                rw [sendHumanizedEffs]
                simp only []
                split
                · rfl
                · split
                  · rfl
                  · rw [sendFragments_all_stale _ _ _ 0 hobs]
                    rfl

end MN

namespace MN

/-- Claim C10 (counterexample). After an admin message over a pending
buffered reply, the still-scheduled timer callback does not find a stale
token and return without side effects: the pending buffer kept its original
token, so the callback still reaches the AI call for the buffered text. -/
theorem C10_counterexample :
    (stepEvent c10ctx
      (runTrace c10ctx initBufState
        [BotEvent.enqueue "salom", BotEvent.adminSend "Narxi 99 ming."]).1
      BotEvent.fire).2
    = [BEff.markRead, BEff.aiCall "salom"] := by rfl

end MN

namespace MN

/-- Claim C2 (counterexample). A photo with no payment keywords, persisted
step not `awaiting_payment_receipt`, and an open ad order in status
`payment_submitted` is not routed to the payment-receipt pipeline: no
payments-topic forward and no payment task are produced, and the photo is
stored as candidate media instead. -/
theorem C2_counterexample :
    (Eff.forwardPaymentsTopic ∉
      (forwardIncomingMedia cfgAllM
        ⟨[⟨"u1", some "female", "idle", 1⟩],
         [⟨1, "ad", "payment_submitted", "u1", 90000, none⟩], [], 2⟩
        "u1" "photo" "" (some 10)).2) ∧
    (Eff.createTask "payment" ∉
      (forwardIncomingMedia cfgAllM
        ⟨[⟨"u1", some "female", "idle", 1⟩],
         [⟨1, "ad", "payment_submitted", "u1", 90000, none⟩], [], 2⟩
        "u1" "photo" "" (some 10)).2) ∧
    (forwardIncomingMedia cfgAllM
        ⟨[⟨"u1", some "female", "idle", 1⟩],
         [⟨1, "ad", "payment_submitted", "u1", 90000, none⟩], [], 2⟩
        "u1" "photo" "" (some 10)).1.media
      = [⟨"u1", "photo", some 1, 10⟩] := by decide


end MN


namespace MN

/-- Claim C2 (amended). The payment-receipt route is taken when the resolved
step is `awaiting_payment_receipt` or the text carries a payment-evidence
keyword. The status set of the open order enters only through step
inference: status `awaiting_check` on the latest open order resolves the
persisted step to `awaiting_payment_receipt`, so a photo with no keywords is
still routed to the payments pipeline and the order becomes
`payment_submitted`. The statuses `awaiting_payment` and `payment_submitted`
do not themselves force the payment route. -/
theorem C2_amended (cfg : MediaCfg) (π : String) (g : Option String) (n : Nat)
    (ot : String) (amt : Nat) (text : String)
    (hπ : normalizeCurrentStep π ≠ "escalated_to_admin")
    (hgrp : cfg.adminGroup = true) (hpt : cfg.paymentsTopic = true) :
    Eff.forwardPaymentsTopic ∈
      (forwardIncomingMedia cfg
        ⟨[⟨"u1", g, π, n⟩], [⟨1, ot, "awaiting_check", "u1", amt, none⟩], [], 2⟩
        "u1" "photo" text (some 10)).2 ∧
    Eff.createTask "payment" ∈
      (forwardIncomingMedia cfg
        ⟨[⟨"u1", g, π, n⟩], [⟨1, ot, "awaiting_check", "u1", amt, none⟩], [], 2⟩
        "u1" "photo" text (some 10)).2 ∧
    (findOrder (forwardIncomingMedia cfg
        ⟨[⟨"u1", g, π, n⟩], [⟨1, ot, "awaiting_check", "u1", amt, none⟩], [], 2⟩
        "u1" "photo" text (some 10)).1 1).map (fun o => o.status)
      = some "payment_submitted" := by
  set row : OrderRow := ⟨1, ot, "awaiting_check", "u1", amt, none⟩ with hrow
  set db0 : Db := ⟨[⟨"u1", g, π, n⟩], [row], [], 2⟩ with hdb0
  have hopen : getLatestOpenOrder db0 "u1" = some row := by
    simp [getLatestOpenOrder, latestById, openStatuses, hdb0, List.filter]
  have hprof : getOrCreateUserProfile db0 "u1" = (db0, ⟨"u1", g, π, n⟩) := rfl
  have hinf : resolveStepFromOrderState (some ot) (some "awaiting_check")
      = "awaiting_payment_receipt" := by
    simp [resolveStepFromOrderState]
  have hres : resolveCurrentStep db0 "u1" (some row)
      = (if normalizeCurrentStep π = "awaiting_payment_receipt" then db0
         else updateProfileRow db0 "u1"
           (fun p => { p with currentStep := "awaiting_payment_receipt" }),
         "awaiting_payment_receipt") := by
    unfold resolveCurrentStep
    rw [hprof]
    simp only [Option.map_some', hrow]
    rw [if_neg hπ]
    rw [hinf]
    by_cases hstep : normalizeCurrentStep π = "awaiting_payment_receipt"
    · rw [if_neg (by simp [hstep])]
      simp [hstep]
    · rw [if_pos ⟨by decide, fun hc => hstep hc.symm⟩]
      unfold setUserCurrentStep
      rw [hprof]
      simp only []
      rw [if_neg hstep, if_neg hstep]
  have hpay : ∀ dbX : Db, handlePaymentReceiptMedia cfg dbX "u1" text "photo" row
      = ((setUserCurrentStep (updateOrderStatus dbX 1 "payment_submitted") "u1"
          "payment_receipt_submitted" none).1,
         [Eff.forwardPaymentsTopic, Eff.createTask "payment",
          Eff.analyzeImage "payment_receipt"]
           ++ (if row.orderType = "ad" then
                [Eff.sendUser "u1" "To\x27lov tushgach, anketangizni yuborasiz."]
              else []),
         true) := by
    intro dbX
    unfold handlePaymentReceiptMedia
    rw [if_neg (by simp [hpt])]
    rw [if_neg (by simp [hrow])]
    rw [if_neg (by simp)]
  unfold forwardIncomingMedia
  rw [if_neg (by simp [hgrp])]
  rw [hopen]
  simp only []
  rw [hres]
  simp only []
  rw [if_pos (Or.inl trivial)]
  rw [hpay]
  rw [if_pos rfl]
  refine ⟨by simp, by simp, ?_⟩
  have horders : ∀ dbX : Db, dbX.orders = [row] →
      (findOrder ((setUserCurrentStep (updateOrderStatus dbX 1 "payment_submitted")
        "u1" "payment_receipt_submitted" none).1) 1).map (fun o => o.status)
      = some "payment_submitted" := by
    intro dbX hX
    unfold findOrder
    rw [orders_setStep]
    simp [updateOrderStatus, hX, List.find?]
  apply horders
  split
  · rfl
  · rfl

end MN

namespace MN

theorem media_cap_no_insert (cfg : MediaCfg) (db : Db) (u text : String) (msgId : Option Nat)
    (o : OrderRow)
    (hopen : getOpenAdOrder db u = some o)
    (hcount : 2 ≤ (getAdMediaCounts db u (some o.id)).1) :
    (forwardIncomingMedia cfg db u "photo" text msgId).1.media = db.media := by
  unfold forwardIncomingMedia
  split
  · rfl
  · simp only []
    have hords : ((resolveCurrentStep db u (getLatestOpenOrder db u)).1).orders = db.orders :=
      orders_resolve _ _ _
    have hmed : ((resolveCurrentStep db u (getLatestOpenOrder db u)).1).media = db.media :=
      media_resolve _ _ _
    have hopen1 : getOpenAdOrder ((resolveCurrentStep db u (getLatestOpenOrder db u)).1) u
        = some o := (getOpenAdOrder_congr u hords).trans hopen
    have hcnt1 : 2 ≤ (getAdMediaCounts ((resolveCurrentStep db u (getLatestOpenOrder db u)).1)
        u (some o.id)).1 := by
      rw [getAdMediaCounts_congr u (some o.id) hmed]
      exact hcount
    split
    · next r heq =>
        rcases hmatch : getLatestOpenOrder db u with _ | oo
        · rw [hmatch] at heq
          simp at heq
        · rw [hmatch] at heq
          simp only [] at heq
          split at heq
          · split at heq
            · cases heq
              simp [hmed]
            · cases heq
          · cases heq
    · split
      · split
        · simp [hmed]
        · simp [hmed]
      · split
        · simp [hmed]
        · rw [hopen1]
          simp only []
          split
          · split <;> simp [hmed]
          · split
            · simp [hmed]
            · split
              · simp [hmed]
              · next hph _ =>
                  rw [not_and] at hph
                  exact absurd hcnt1 (hph trivial)

end MN


namespace MN

theorem setStep_snd_none (db : Db) (u n : String) :
    (setUserCurrentStep db u n none).2 = n := by
  unfold setUserCurrentStep
  simp only []
  split
  · next h => exact h
  · rfl

theorem resolve_snd_some (db : Db) (u : String) (o : OrderRow)
    (hinf : resolveStepFromOrderState (some o.orderType) (some o.status) ≠ "idle") :
    (resolveCurrentStep db u (some o)).2 = "escalated_to_admin" ∨
    (resolveCurrentStep db u (some o)).2
      = resolveStepFromOrderState (some o.orderType) (some o.status) := by
  unfold resolveCurrentStep
  simp only [Option.map_some']
  split
  · next h => exact Or.inl h
  · split
    · exact Or.inr (setStep_snd_none _ _ _)
    · next hcond =>
        right
        rw [not_and_or, not_not, not_not] at hcond
        rcases hcond with h | h
        · exact absurd h hinf
        · simp only []
          split <;> simp [h]

theorem media_cap_notice (cfg : MediaCfg) (db : Db) (u text : String) (msgId : Option Nat)
    (o : OrderRow)
    (hopen : getOpenAdOrder db u = some o)
    (hlatest : getLatestOpenOrder db u = some o)
    (hcount : 2 ≤ (getAdMediaCounts db u (some o.id)).1)
    (hst : o.status = "payment_submitted" ∨ o.status = "awaiting_content"
      ∨ o.status = "ready_to_publish")
    (hot : o.orderType = "ad")
    (hkw : isPaymentEvidence text = false)
    (hgrp : cfg.adminGroup = true)
    (hready : cfg.archiveReady = true) :
    Eff.sendUser u "2 ta rasm yetarli. Ortiqcha yubormang." ∈
      (forwardIncomingMedia cfg db u "photo" text msgId).2 := by
  have hinfne : resolveStepFromOrderState (some o.orderType) (some o.status) ≠ "idle" := by
    rcases hst with h | h | h <;> simp [resolveStepFromOrderState, h, hot]
  have hsne : (resolveCurrentStep db u (some o)).2 ≠ "awaiting_payment_receipt" := by
    rcases resolve_snd_some db u o hinfne with h | h <;> rw [h]
    · decide
    · rcases hst with hs | hs | hs <;> simp [resolveStepFromOrderState, hs, hot]
  unfold forwardIncomingMedia
  rw [if_neg (by simp [hgrp])]
  rw [hlatest]
  simp only []
  rw [if_neg (by rw [not_or]; exact ⟨hsne, by simp [hkw]⟩)]
  rw [if_neg (by decide)]
  rw [if_neg (by simp [hready])]
  have hords : ((resolveCurrentStep db u (some o)).1).orders = db.orders :=
    orders_resolve _ _ _
  have hmed : ((resolveCurrentStep db u (some o)).1).media = db.media :=
    media_resolve _ _ _
  rw [(getOpenAdOrder_congr u hords).trans hopen]
  simp only []
  rw [if_neg (not_not_intro hst)]
  rw [if_pos ⟨by trivial, by rw [getAdMediaCounts_congr u (some o.id) hmed]; exact hcount⟩]
  simp

theorem media_cap_no_insert_video (cfg : MediaCfg) (db : Db) (u text : String)
    (msgId : Option Nat) (o : OrderRow)
    (hopen : getOpenAdOrder db u = some o)
    (hcount : 1 ≤ (getAdMediaCounts db u (some o.id)).2.1) :
    (forwardIncomingMedia cfg db u "video" text msgId).1.media = db.media := by
  unfold forwardIncomingMedia
  split
  · rfl
  · simp only []
    have hords : ((resolveCurrentStep db u (getLatestOpenOrder db u)).1).orders = db.orders :=
      orders_resolve _ _ _
    have hmed : ((resolveCurrentStep db u (getLatestOpenOrder db u)).1).media = db.media :=
      media_resolve _ _ _
    have hopen1 : getOpenAdOrder ((resolveCurrentStep db u (getLatestOpenOrder db u)).1) u
        = some o := (getOpenAdOrder_congr u hords).trans hopen
    have hcnt1 : 1 ≤ (getAdMediaCounts ((resolveCurrentStep db u (getLatestOpenOrder db u)).1)
        u (some o.id)).2.1 := by
      rw [getAdMediaCounts_congr u (some o.id) hmed]
      exact hcount
    split
    · next r heq =>
        rcases hmatch : getLatestOpenOrder db u with _ | oo
        · rw [hmatch] at heq
          simp at heq
        · rw [hmatch] at heq
          simp only [] at heq
          split at heq
          · split at heq
            · cases heq
              simp [hmed]
            · cases heq
          · cases heq
    · split
      · split
        · simp [hmed]
        · simp [hmed]
      · split
        · simp [hmed]
        · rw [hopen1]
          simp only []
          split
          · split <;> simp [hmed]
          · split
            · simp [hmed]
            · split
              · simp [hmed]
              · next _ hv =>
                  exact absurd ⟨trivial, hcnt1⟩ hv

theorem media_cap_notice_video (cfg : MediaCfg) (db : Db) (u text : String)
    (msgId : Option Nat) (o : OrderRow)
    (hopen : getOpenAdOrder db u = some o)
    (hlatest : getLatestOpenOrder db u = some o)
    (hcount : 1 ≤ (getAdMediaCounts db u (some o.id)).2.1)
    (hst : o.status = "payment_submitted" ∨ o.status = "awaiting_content"
      ∨ o.status = "ready_to_publish")
    (hot : o.orderType = "ad")
    (hkw : isPaymentEvidence text = false)
    (hgrp : cfg.adminGroup = true)
    (hready : cfg.archiveReady = true) :
    Eff.sendUser u "1 ta video yetarli. Ortiqcha yubormang." ∈
      (forwardIncomingMedia cfg db u "video" text msgId).2 := by
  have hinfne : resolveStepFromOrderState (some o.orderType) (some o.status) ≠ "idle" := by
    rcases hst with h | h | h <;> simp [resolveStepFromOrderState, h, hot]
  have hsne : (resolveCurrentStep db u (some o)).2 ≠ "awaiting_payment_receipt" := by
    rcases resolve_snd_some db u o hinfne with h | h <;> rw [h]
    · decide
    · rcases hst with hs | hs | hs <;> simp [resolveStepFromOrderState, hs, hot]
  unfold forwardIncomingMedia
  rw [if_neg (by simp [hgrp])]
  rw [hlatest]
  simp only []
  rw [if_neg (by rw [not_or]; exact ⟨hsne, by simp [hkw]⟩)]
  rw [if_neg (by decide)]
  rw [if_neg (by simp [hready])]
  have hords : ((resolveCurrentStep db u (some o)).1).orders = db.orders :=
    orders_resolve _ _ _
  have hmed : ((resolveCurrentStep db u (some o)).1).media = db.media :=
    media_resolve _ _ _
  rw [(getOpenAdOrder_congr u hords).trans hopen]
  simp only []
  rw [if_neg (not_not_intro hst)]
  rw [if_neg (by simp)]
  rw [if_pos ⟨by trivial, by rw [getAdMediaCounts_congr u (some o.id) hmed]; exact hcount⟩]
  simp

end MN


namespace MN

/-- Claim C1 (counterexample). `handleMediaApprove` has no guarding
predecessor-status set: applying it twice to the same task re-executes the
approval side effects both times and never answers already-processed. -/
theorem C1_counterexample :
    ((handleMediaApprove
        ((handleMediaApprove ⟨[⟨7, "publish", "posted", some "u9", some 4, some "ad", "Jins: ayol", true⟩], []⟩ 7).1)
        7).2
      = [MEff.answer "Media tasdiqlandi.", MEff.audit "media_approved"]) ∧
    MEff.answer "Allaqachon ishlangan." ∉
      ((handleMediaApprove
        ((handleMediaApprove ⟨[⟨7, "publish", "posted", some "u9", some 4, some "ad", "Jins: ayol", true⟩], []⟩ 7).1)
        7).2) := by decide

theorem payment_callback_reapply (tty st : String) (uid : Option String) (oid : Option Nat)
    (oty : Option String) (ptxt : String) (adm : Bool) (ords : List OrderRow)
    (act : String)
    (hst : st = "pending" ∨ st = "posted" ∨ st = "payment_submitted")
    (hact : act = "approve" ∨ act = "reject") :
    ((findTask (handlePaymentCallback ⟨[⟨1, tty, st, uid, oid, oty, ptxt, adm⟩], ords⟩ act 1).1 1).map
        (fun t => t.status)
      = some (if act = "approve" then "approved" else "rejected")) ∧
    handlePaymentCallback (handlePaymentCallback ⟨[⟨1, tty, st, uid, oid, oty, ptxt, adm⟩], ords⟩ act 1).1 act 1
      = ((handlePaymentCallback ⟨[⟨1, tty, st, uid, oid, oty, ptxt, adm⟩], ords⟩ act 1).1,
         [MEff.answer "Allaqachon ishlangan."]) := by
  rcases hst with rfl | rfl | rfl <;> rcases hact with rfl | rfl <;>
    rcases oid with _ | oidv <;> rcases uid with _ | uidv <;>
      simp [handlePaymentCallback, findTask, updateTaskWhereStatusIn,
        updateMOrderStatus, List.find?]

end MN


namespace MN

theorem escalation_callback_reapply (tty st uidv : String) (oid : Option Nat)
    (oty : Option String) (ptxt : String) (adm : Bool) (ords : List OrderRow)
    (act : String)
    (hst : st = "pending" ∨ st = "posted")
    (hact : act = "resume" ∨ act = "block") :
    ((findTask (handleEscalationCallback ⟨[⟨1, tty, st, some uidv, oid, oty, ptxt, adm⟩], ords⟩ 1 act).1 1).map
        (fun t => t.status)
      = some (if act = "resume" then "resolved" else "blocked")) ∧
    ((handleEscalationCallback ⟨[⟨1, tty, st, some uidv, oid, oty, ptxt, adm⟩], ords⟩ 1 act).2
      = (if act = "resume" then [MEff.resumeAi uidv] else [MEff.blockUser uidv])
        ++ [MEff.audit (if act = "resume" then "escalation_resume" else "escalation_block"),
            MEff.answer (if act = "resume" then "AI qaytarildi" else "Foydalanuvchi bloklandi"),
            MEff.editMessage]) ∧
    handleEscalationCallback
        (handleEscalationCallback ⟨[⟨1, tty, st, some uidv, oid, oty, ptxt, adm⟩], ords⟩ 1 act).1 1 act
      = ((handleEscalationCallback ⟨[⟨1, tty, st, some uidv, oid, oty, ptxt, adm⟩], ords⟩ 1 act).1,
         [MEff.answer "Allaqachon ishlangan."]) := by
  rcases hst with rfl | rfl <;> rcases hact with rfl | rfl <;>
    simp [handleEscalationCallback, findTask, updateTaskWhereStatusIn, List.find?]

theorem publishAnketaTask_skip (env : PublishEnv)
    (hskip : env.clientAvailable = false ∨ env.channelsConfigured = false
      ∨ env.mediaReady = false ∨ env.mediaWithinCap = false) :
    ∀ (dbX : MDb) (tid : Nat), publishAnketaTask env dbX tid = (dbX, []) := by
  intro dbX tid
  unfold publishAnketaTask
  rcases env with ⟨c, ch, mr, mc, f⟩
  cases c <;> cases ch <;> cases mr <;> cases mc <;> simp_all

theorem publish_callback_success_reapply (tty : String) (uid : Option String)
    (oid : Option Nat) (oty : Option String) (ptxt : String) (adm : Bool)
    (ords : List OrderRow) (env env2 : PublishEnv)
    (hp : trimS ptxt ≠ "")
    (hc : env.clientAvailable = true) (hch : env.channelsConfigured = true)
    (hmr : env.mediaReady = true) (hmc : env.mediaWithinCap = true)
    (hf : env.fullyPublished = true) :
    ((findTask (handlePublishCallback env ⟨[⟨1, tty, "media_approved", uid, oid, oty, ptxt, adm⟩], ords⟩ 1).1 1).map
        (fun t => t.status) = some "published") ∧
    (MEff.publishPost 1 ∈
      (handlePublishCallback env ⟨[⟨1, tty, "media_approved", uid, oid, oty, ptxt, adm⟩], ords⟩ 1).2) ∧
    handlePublishCallback env2
        (handlePublishCallback env ⟨[⟨1, tty, "media_approved", uid, oid, oty, ptxt, adm⟩], ords⟩ 1).1 1
      = ((handlePublishCallback env ⟨[⟨1, tty, "media_approved", uid, oid, oty, ptxt, adm⟩], ords⟩ 1).1,
         [MEff.answer "Allaqachon chiqarilgan."]) := by
  simp [handlePublishCallback, publishAnketaTask, findTask, updateTaskStatus,
    List.find?, hp, hc, hch, hmr, hmc, hf]

theorem publish_callback_early_reapply (tty : String) (uid : Option String)
    (oid : Option Nat) (oty : Option String) (ptxt : String) (adm : Bool)
    (ords : List OrderRow) (env : PublishEnv)
    (hp : trimS ptxt ≠ "")
    (hskip : env.clientAvailable = false ∨ env.channelsConfigured = false
      ∨ env.mediaReady = false ∨ env.mediaWithinCap = false) :
    ((handlePublishCallback env ⟨[⟨1, tty, "media_approved", uid, oid, oty, ptxt, adm⟩], ords⟩ 1).1
      = ⟨[⟨1, tty, "media_approved", uid, oid, oty, ptxt, adm⟩], ords⟩) ∧
    handlePublishCallback env
        (handlePublishCallback env ⟨[⟨1, tty, "media_approved", uid, oid, oty, ptxt, adm⟩], ords⟩ 1).1 1
      = handlePublishCallback env ⟨[⟨1, tty, "media_approved", uid, oid, oty, ptxt, adm⟩], ords⟩ 1 ∧
    MEff.answer "Allaqachon chiqarilgan." ∉
      (handlePublishCallback env ⟨[⟨1, tty, "media_approved", uid, oid, oty, ptxt, adm⟩], ords⟩ 1).2 ∧
    MEff.answer "Kanalga chiqarildi." ∈
      (handlePublishCallback env ⟨[⟨1, tty, "media_approved", uid, oid, oty, ptxt, adm⟩], ords⟩ 1).2 := by
  have hpub := publishAnketaTask_skip env hskip
  cases adm <;>
    simp [handlePublishCallback, findTask, List.find?, hp, hpub]

theorem media_reset_reapply (tty st uidv : String) (oidv : Nat)
    (oty : Option String) (ptxt : String) (adm : Bool) (ords : List OrderRow) :
    (handleMediaReset
        (handleMediaReset ⟨[⟨1, tty, st, some uidv, some oidv, oty, ptxt, adm⟩], ords⟩ 1).1 1).2
      = [MEff.clearMedia uidv oidv,
         MEff.sendUser uidv "Media tozalandi. 2 ta rasm va 1 ta video yuboring.",
         MEff.syncStep oidv,
         MEff.answer "Media reset qilindi.", MEff.audit "media_reset"] := by
  simp [handleMediaReset, findTask, updateTaskStatus, updateMOrderStatus, List.find?]

end MN


namespace MN

theorem computeAdPrice_eq_zero_iff (g : String) (n : Nat) :
    computeAdPrice g n = 0 ↔ (g = "female" ∧ n = 0) := by
  unfold computeAdPrice
  split
  · next h => simp [h]
  · next h => simp [adPrice, h]

theorem ad_intent_price_resolution (cfg : FlowCfg) (gp text : String) (n : Nat)
    (hgp : gp ≠ "")
    (htr : trimS text ≠ "")
    (hreset : isMediaResetCommand (trimS text) = false)
    (hvip : isVipIntent (trimS text) = false)
    (had : isAdIntent (trimS text) = true) :
    (findOrder (handleOrderFlow cfg ⟨[⟨"u1", some gp, "idle", n⟩], [], [], 1⟩
        "u1" text none).1 1).map (fun o => (o.amount, o.status))
      = some (computeAdPrice gp n,
          if computeAdPrice gp n = 0 then "awaiting_content" else "awaiting_payment") := by
  have hci : parseContactIntentM (trimS text) none = none := by
    unfold parseContactIntentM
    split <;> rfl
  unfold handleOrderFlow
  rw [if_neg htr]
  rw [if_neg (by simp [hreset])]
  simp only []
  rw [show getLatestOpenOrder ⟨[⟨"u1", some gp, "idle", n⟩], [], [], 1⟩ "u1"
      = none from rfl]
  rw [show resolveCurrentStep ⟨[⟨"u1", some gp, "idle", n⟩], [], [], 1⟩ "u1" none
      = (⟨[⟨"u1", some gp, "idle", n⟩], [], [], 1⟩, "idle") from rfl]
  simp only []
  unfold handleOrderFlowTail
  rw [hci]
  simp only []
  rw [if_neg (by simp [hvip]), if_pos (by simp [had])]
  rw [show getOrCreateUserProfile ⟨[⟨"u1", some gp, "idle", n⟩], [], [], 1⟩ "u1"
      = (⟨[⟨"u1", some gp, "idle", n⟩], [], [], 1⟩, ⟨"u1", some gp, "idle", n⟩) from rfl]
  simp only []
  rw [if_neg (by simp [hgp])]
  simp only [Option.getD]
  by_cases h0 : computeAdPrice gp n = 0
  · obtain ⟨hgf, hn⟩ := (computeAdPrice_eq_zero_iff gp n).mp h0
    subst hgf
    subst hn
    rfl
  · rw [if_neg h0, if_neg h0]
    simp only []
    unfold createOrder
    simp only [Option.getD]
    unfold findOrder
    rw [orders_syncState]
    simp [List.find?]

end MN


namespace MN

/-- Claim C9. When the schema probe reports missing required archive
columns, `assertReadiness` returns an error carrying exactly the
deduplicated missing column names; while every probe keeps failing, no media
row is inserted and the cached readiness flag stays false; a successful
probe lets the insert proceed again; and startup with missing columns does
not succeed. -/
theorem C9_fail_closed :
    (∀ discovered : List String, inspectMissing discovered ≠ [] →
      assertReadiness discovered
        = Except.error ⟨dedupKeepFirst (inspectMissing discovered)⟩) ∧
    (∀ (media : List MediaRow) (attempts : List (List String × MediaRow)),
      (∀ a ∈ attempts, inspectMissing a.1 ≠ []) →
      runMediaWrites false media attempts = (false, media)) ∧
    (∀ (discovered : List String) (media : List MediaRow) (row : MediaRow),
      inspectMissing discovered = [] →
      mediaWriteAttempt false discovered media row = (true, media ++ [row], none)) ∧
    (∀ discovered : List String, inspectMissing discovered ≠ [] →
      onModuleInitStartup discovered ≠ Except.ok ()) := by
  have hassert : ∀ discovered : List String, inspectMissing discovered ≠ [] →
      assertReadiness discovered
        = Except.error ⟨dedupKeepFirst (inspectMissing discovered)⟩ := by
    intro d hd
    unfold assertReadiness
    rw [if_neg hd]
  refine ⟨hassert, ?_, ?_, ?_⟩
  · intro media attempts h
    induction attempts generalizing media with
    | nil => rfl
    | cons a rest ih =>
        obtain ⟨d, row⟩ := a
        have hd := h (d, row) (List.mem_cons_self _ _)
        unfold runMediaWrites mediaWriteAttempt ensureReadiness
        rw [if_neg (by simp)]
        rw [hassert d hd]
        simp only []
        exact ih media (fun a ha => h a (List.mem_cons_of_mem _ ha))
  · intro d media row hd
    unfold mediaWriteAttempt ensureReadiness assertReadiness
    rw [if_neg (by simp)]
    rw [hd]
    simp
  · intro d hd
    unfold onModuleInitStartup
    rw [hassert d hd]
    simp

end MN

namespace MN

theorem media_approve_reapply (tty st : String) (uid : Option String) (oid : Option Nat)
    (oty : Option String) (ptxt : String) (adm : Bool) (ords : List OrderRow) :
    (handleMediaApprove
        (handleMediaApprove ⟨[⟨1, tty, st, uid, oid, oty, ptxt, adm⟩], ords⟩ 1).1 1).2
      = [MEff.answer "Media tasdiqlandi.", MEff.audit "media_approved"] := by
  simp [handleMediaApprove, findTask, updateTaskStatus, List.find?]

theorem media_reject_reapply (tty st uidv : String) (oidv : Nat)
    (oty : Option String) (ptxt : String) (adm : Bool) (ords : List OrderRow) :
    (handleMediaReject
        (handleMediaReject ⟨[⟨1, tty, st, some uidv, some oidv, oty, ptxt, adm⟩], ords⟩ 1).1 1).2
      = [MEff.sendUser uidv "Media mos emas. Qaytadan 2 ta rasm va 1 ta video yuboring.",
         MEff.clearMedia uidv oidv, MEff.syncStep oidv,
         MEff.answer "Media rad etildi.", MEff.audit "media_rejected"] := by
  simp [handleMediaReject, findTask, updateTaskStatus, updateMOrderStatus, List.find?]

/-- Claim C1 (amended). The payment and escalation callbacks are idempotent:
their status update is a single conditional write guarded by the allowed
predecessor statuses, and a second identical application changes nothing and
only answers that the task was already processed. The publish callback is
idempotent only on the fully successful path: there the task becomes
`published` and a repeat is answered already-published; but the task-status
write inside `publishAnketaTask` is unconditional and is skipped entirely on
its early returns (no client, no channels, media not ready or over the cap),
so on those paths a repeated publish leaves the task at `media_approved`,
re-executes exactly the same side effects and never answers
already-processed. The media-approve, media-reject and media-reset handlers
have no guard at all: every application, including a repeated one,
re-executes the full side-effect list and never answers already-processed. -/
theorem C1_amended :
    (∀ (tty st : String) (uid : Option String) (oid : Option Nat) (oty : Option String)
        (ptxt : String) (adm : Bool) (ords : List OrderRow) (act : String),
      st = "pending" ∨ st = "posted" ∨ st = "payment_submitted" →
      act = "approve" ∨ act = "reject" →
      ((findTask (handlePaymentCallback ⟨[⟨1, tty, st, uid, oid, oty, ptxt, adm⟩], ords⟩ act 1).1 1).map
          (fun t => t.status)
        = some (if act = "approve" then "approved" else "rejected")) ∧
      handlePaymentCallback
          (handlePaymentCallback ⟨[⟨1, tty, st, uid, oid, oty, ptxt, adm⟩], ords⟩ act 1).1 act 1
        = ((handlePaymentCallback ⟨[⟨1, tty, st, uid, oid, oty, ptxt, adm⟩], ords⟩ act 1).1,
           [MEff.answer "Allaqachon ishlangan."])) ∧
    (∀ (tty st uidv : String) (oid : Option Nat) (oty : Option String) (ptxt : String)
        (adm : Bool) (ords : List OrderRow) (act : String),
      st = "pending" ∨ st = "posted" →
      act = "resume" ∨ act = "block" →
      handleEscalationCallback
          (handleEscalationCallback ⟨[⟨1, tty, st, some uidv, oid, oty, ptxt, adm⟩], ords⟩ 1 act).1 1 act
        = ((handleEscalationCallback ⟨[⟨1, tty, st, some uidv, oid, oty, ptxt, adm⟩], ords⟩ 1 act).1,
           [MEff.answer "Allaqachon ishlangan."])) ∧
    (∀ (tty : String) (uid : Option String) (oid : Option Nat) (oty : Option String)
        (ptxt : String) (adm : Bool) (ords : List OrderRow) (env env2 : PublishEnv),
      trimS ptxt ≠ "" →
      env.clientAvailable = true → env.channelsConfigured = true →
      env.mediaReady = true → env.mediaWithinCap = true →
      env.fullyPublished = true →
      ((findTask (handlePublishCallback env ⟨[⟨1, tty, "media_approved", uid, oid, oty, ptxt, adm⟩], ords⟩ 1).1 1).map
          (fun t => t.status) = some "published") ∧
      handlePublishCallback env2
          (handlePublishCallback env ⟨[⟨1, tty, "media_approved", uid, oid, oty, ptxt, adm⟩], ords⟩ 1).1 1
        = ((handlePublishCallback env ⟨[⟨1, tty, "media_approved", uid, oid, oty, ptxt, adm⟩], ords⟩ 1).1,
           [MEff.answer "Allaqachon chiqarilgan."])) ∧
    (∀ (tty : String) (uid : Option String) (oid : Option Nat) (oty : Option String)
        (ptxt : String) (adm : Bool) (ords : List OrderRow) (env : PublishEnv),
      trimS ptxt ≠ "" →
      (env.clientAvailable = false ∨ env.channelsConfigured = false
        ∨ env.mediaReady = false ∨ env.mediaWithinCap = false) →
      ((handlePublishCallback env ⟨[⟨1, tty, "media_approved", uid, oid, oty, ptxt, adm⟩], ords⟩ 1).1
        = ⟨[⟨1, tty, "media_approved", uid, oid, oty, ptxt, adm⟩], ords⟩) ∧
      handlePublishCallback env
          (handlePublishCallback env ⟨[⟨1, tty, "media_approved", uid, oid, oty, ptxt, adm⟩], ords⟩ 1).1 1
        = handlePublishCallback env ⟨[⟨1, tty, "media_approved", uid, oid, oty, ptxt, adm⟩], ords⟩ 1 ∧
      MEff.answer "Allaqachon chiqarilgan." ∉
        (handlePublishCallback env ⟨[⟨1, tty, "media_approved", uid, oid, oty, ptxt, adm⟩], ords⟩ 1).2 ∧
      MEff.answer "Kanalga chiqarildi." ∈
        (handlePublishCallback env ⟨[⟨1, tty, "media_approved", uid, oid, oty, ptxt, adm⟩], ords⟩ 1).2) ∧
    (∀ (tty st : String) (uid : Option String) (oid : Option Nat) (oty : Option String)
        (ptxt : String) (adm : Bool) (ords : List OrderRow),
      (handleMediaApprove
          (handleMediaApprove ⟨[⟨1, tty, st, uid, oid, oty, ptxt, adm⟩], ords⟩ 1).1 1).2
        = [MEff.answer "Media tasdiqlandi.", MEff.audit "media_approved"]) ∧
    (∀ (tty st uidv : String) (oidv : Nat) (oty : Option String) (ptxt : String)
        (adm : Bool) (ords : List OrderRow),
      (handleMediaReject
          (handleMediaReject ⟨[⟨1, tty, st, some uidv, some oidv, oty, ptxt, adm⟩], ords⟩ 1).1 1).2
        = [MEff.sendUser uidv "Media mos emas. Qaytadan 2 ta rasm va 1 ta video yuboring.",
           MEff.clearMedia uidv oidv, MEff.syncStep oidv,
           MEff.answer "Media rad etildi.", MEff.audit "media_rejected"]) ∧
    (∀ (tty st uidv : String) (oidv : Nat) (oty : Option String) (ptxt : String)
        (adm : Bool) (ords : List OrderRow),
      (handleMediaReset
          (handleMediaReset ⟨[⟨1, tty, st, some uidv, some oidv, oty, ptxt, adm⟩], ords⟩ 1).1 1).2
        = [MEff.clearMedia uidv oidv,
           MEff.sendUser uidv "Media tozalandi. 2 ta rasm va 1 ta video yuboring.",
           MEff.syncStep oidv,
           MEff.answer "Media reset qilindi.", MEff.audit "media_reset"]) := by
  refine ⟨?_, ?_, ?_, ?_, ?_, ?_, ?_⟩
  · intro tty st uid oid oty ptxt adm ords act h1 h2
    exact payment_callback_reapply tty st uid oid oty ptxt adm ords act h1 h2
  · intro tty st uidv oid oty ptxt adm ords act h1 h2
    exact (escalation_callback_reapply tty st uidv oid oty ptxt adm ords act h1 h2).2.2
  · intro tty uid oid oty ptxt adm ords env env2 h hc hch hmr hmc hf
    have hres := publish_callback_success_reapply tty uid oid oty ptxt adm ords env env2
      h hc hch hmr hmc hf
    exact ⟨hres.1, hres.2.2⟩
  · intro tty uid oid oty ptxt adm ords env h hskip
    exact publish_callback_early_reapply tty uid oid oty ptxt adm ords env h hskip
  · intro tty st uid oid oty ptxt adm ords
    exact media_approve_reapply tty st uid oid oty ptxt adm ords
  · intro tty st uidv oidv oty ptxt adm ords
    exact media_reject_reapply tty st uidv oidv oty ptxt adm ords
  · intro tty st uidv oidv oty ptxt adm ords
    exact media_reset_reapply tty st uidv oidv oty ptxt adm ords

/-- Claim C6. `computeAdPrice` returns 0 exactly when the gender is female
and the ad count is 0, and the fixed ad fee otherwise; the fee constants are
the fixed literals of the source; and when an ad-intent message creates the
ad order, amount 0 yields status `awaiting_content` while a positive amount
yields `awaiting_payment`. -/
theorem C6_theorem :
    (∀ (g : String) (n : Nat), computeAdPrice g n = 0 ↔ (g = "female" ∧ n = 0)) ∧
    (∀ (g : String) (n : Nat), ¬(g = "female" ∧ n = 0) → computeAdPrice g n = adPrice) ∧
    adPrice = 90000 ∧ contactPrice = 99000 ∧ vipPrice = 490000 ∧
    (∀ (cfg : FlowCfg) (gp text : String) (n : Nat),
      gp ≠ "" → trimS text ≠ "" → isMediaResetCommand (trimS text) = false →
      isVipIntent (trimS text) = false → isAdIntent (trimS text) = true →
      (findOrder (handleOrderFlow cfg ⟨[⟨"u1", some gp, "idle", n⟩], [], [], 1⟩ "u1" text none).1 1).map
          (fun o => (o.amount, o.status))
        = some (computeAdPrice gp n,
            if computeAdPrice gp n = 0 then "awaiting_content" else "awaiting_payment")) := by
  refine ⟨computeAdPrice_eq_zero_iff, ?_, rfl, rfl, rfl, ?_⟩
  · intro g n h
    unfold computeAdPrice
    rw [if_neg h]
  · intro cfg gp text n h1 h2 h3 h4 h5
    exact ad_intent_price_resolution cfg gp text n h1 h2 h3 h4 h5

/-- Claim C7. When the open ad order of a user already holds 2 stored
photos, an incoming photo writes no media row (the stored media list is
unchanged), and on the candidate-media route the user is told that 2
pictures are enough; likewise, when 1 video is already stored, an incoming
video writes no media row and on the candidate-media route the user is told
that 1 video is enough. -/
theorem C7_theorem :
    (∀ (cfg : MediaCfg) (db : Db) (u text : String) (msgId : Option Nat) (o : OrderRow),
      getOpenAdOrder db u = some o →
      2 ≤ (getAdMediaCounts db u (some o.id)).1 →
      (forwardIncomingMedia cfg db u "photo" text msgId).1.media = db.media) ∧
    (∀ (cfg : MediaCfg) (db : Db) (u text : String) (msgId : Option Nat) (o : OrderRow),
      getOpenAdOrder db u = some o →
      getLatestOpenOrder db u = some o →
      2 ≤ (getAdMediaCounts db u (some o.id)).1 →
      (o.status = "payment_submitted" ∨ o.status = "awaiting_content"
        ∨ o.status = "ready_to_publish") →
      o.orderType = "ad" →
      isPaymentEvidence text = false →
      cfg.adminGroup = true →
      cfg.archiveReady = true →
      Eff.sendUser u "2 ta rasm yetarli. Ortiqcha yubormang." ∈
        (forwardIncomingMedia cfg db u "photo" text msgId).2) ∧
    (∀ (cfg : MediaCfg) (db : Db) (u text : String) (msgId : Option Nat) (o : OrderRow),
      getOpenAdOrder db u = some o →
      1 ≤ (getAdMediaCounts db u (some o.id)).2.1 →
      (forwardIncomingMedia cfg db u "video" text msgId).1.media = db.media) ∧
    (∀ (cfg : MediaCfg) (db : Db) (u text : String) (msgId : Option Nat) (o : OrderRow),
      getOpenAdOrder db u = some o →
      getLatestOpenOrder db u = some o →
      1 ≤ (getAdMediaCounts db u (some o.id)).2.1 →
      (o.status = "payment_submitted" ∨ o.status = "awaiting_content"
        ∨ o.status = "ready_to_publish") →
      o.orderType = "ad" →
      isPaymentEvidence text = false →
      cfg.adminGroup = true →
      cfg.archiveReady = true →
      Eff.sendUser u "1 ta video yetarli. Ortiqcha yubormang." ∈
        (forwardIncomingMedia cfg db u "video" text msgId).2) :=
  ⟨fun cfg db u text msgId o h1 h2 => media_cap_no_insert cfg db u text msgId o h1 h2,
   fun cfg db u text msgId o h1 h2 h3 h4 h5 h6 h7 h8 =>
     media_cap_notice cfg db u text msgId o h1 h2 h3 h4 h5 h6 h7 h8,
   fun cfg db u text msgId o h1 h2 => media_cap_no_insert_video cfg db u text msgId o h1 h2,
   fun cfg db u text msgId o h1 h2 h3 h4 h5 h6 h7 h8 =>
     media_cap_notice_video cfg db u text msgId o h1 h2 h3 h4 h5 h6 h7 h8⟩

/-- Claim C3 (counterexample). Starting from one open ad order in status
`awaiting_content`, a vip-intent message creates a vip order; the ad-intent
guard of `handleOrderFlow` checks only the latest open order, which is now
the vip order, so a following ad-intent message inserts a second open ad
order for the same user. -/
theorem C3_counterexample :
    (getOpenAdOrder
        ⟨[⟨"u1", some "female", "awaiting_candidate_media", 1⟩],
         [⟨1, "ad", "awaiting_content", "u1", 90000, none⟩], [], 2⟩ "u1"
      = some ⟨1, "ad", "awaiting_content", "u1", 90000, none⟩) ∧
    openAdOrderCount
        ⟨[⟨"u1", some "female", "awaiting_candidate_media", 1⟩],
         [⟨1, "ad", "awaiting_content", "u1", 90000, none⟩], [], 2⟩ "u1" = 1 ∧
    openAdOrderCount
      ((handleOrderFlow ⟨none, none, none, none, none⟩
        ((handleOrderFlow ⟨none, none, none, none, none⟩
          ⟨[⟨"u1", some "female", "awaiting_candidate_media", 1⟩],
           [⟨1, "ad", "awaiting_content", "u1", 90000, none⟩], [], 2⟩
          "u1" "vip kanal obuna bo\x27laman" none).1)
        "u1" "endi anketa joylayman" none).1) "u1" = 2 := by decide

/-- Witness for C2: a photo with empty text while the persisted step is
`idle` and the single open ad order has status `awaiting_check` is routed to
the payments topic, creates a payment task, and the order becomes
`payment_submitted`. -/
theorem C2_witness :
    Eff.forwardPaymentsTopic ∈
      (forwardIncomingMedia cfgAllM
        ⟨[⟨"u1", some "female", "idle", 0⟩],
         [⟨1, "ad", "awaiting_check", "u1", 90000, none⟩], [], 2⟩
        "u1" "photo" "" (some 10)).2 ∧
    Eff.createTask "payment" ∈
      (forwardIncomingMedia cfgAllM
        ⟨[⟨"u1", some "female", "idle", 0⟩],
         [⟨1, "ad", "awaiting_check", "u1", 90000, none⟩], [], 2⟩
        "u1" "photo" "" (some 10)).2 ∧
    (findOrder (forwardIncomingMedia cfgAllM
        ⟨[⟨"u1", some "female", "idle", 0⟩],
         [⟨1, "ad", "awaiting_check", "u1", 90000, none⟩], [], 2⟩
        "u1" "photo" "" (some 10)).1 1).map (fun o => o.status)
      = some "payment_submitted" :=
  C2_amended cfgAllM "idle" (some "female") 0 "ad" 90000 "" (by decide) rfl rfl

/-- Witness for C3: a concrete database whose latest open order is the open
ad order; an ad-intent message does not change the number of ad order rows. -/
theorem C3_witness :
    adOrderRowCount
      ((handleOrderFlow ⟨none, none, none, none, none⟩
        ⟨[⟨"u1", some "female", "idle", 1⟩],
         [⟨1, "ad", "awaiting_content", "u1", 90000, none⟩], [], 2⟩
        "u1" "endi anketa joylayman" none).1) "u1"
      = adOrderRowCount
        ⟨[⟨"u1", some "female", "idle", 1⟩],
         [⟨1, "ad", "awaiting_content", "u1", 90000, none⟩], [], 2⟩ "u1" :=
  C3_amended ⟨none, none, none, none, none⟩
    ⟨[⟨"u1", some "female", "idle", 1⟩],
     [⟨1, "ad", "awaiting_content", "u1", 90000, none⟩], [], 2⟩
    "u1" "endi anketa joylayman" none
    ⟨1, "ad", "awaiting_content", "u1", 90000, none⟩ (by decide) rfl (by decide)

/-- Witness for C4: `Salom` then `yordam kerak` enqueued before the timer
fires yield exactly one AI call with the newline-joined input. -/
theorem C4_witness :
    aiInputs (runTrace ⟨true, true, fun _ => "Albatta!", fun _ => false⟩ initBufState
        ([BotEvent.enqueue "Salom", BotEvent.enqueue "yordam kerak"]
          ++ List.replicate 1 BotEvent.fire)).2
      = ["Salom\nyordam kerak"] :=
  (C4_coalescing ⟨true, true, fun _ => "Albatta!", fun _ => false⟩ "Salom" "yordam kerak" 0
    rfl (by decide) (by decide) (by decide) (by decide)).trans (by decide)

/-- Witness for C8: the buffered text `firib` with a configured model
escalates and makes no AI call. -/
theorem C8_witness :
    (stepEvent c10ctx ⟨1, some ⟨["firib"], 1⟩, some 1⟩ BotEvent.fire).2
      = [BEff.markRead, BEff.pauseAi, BEff.setStep "escalated_to_admin",
         BEff.createTask "escalation"] ∧
    aiInputs (stepEvent c10ctx ⟨1, some ⟨["firib"], 1⟩, some 1⟩ BotEvent.fire).2 = [] :=
  C8_escalation_precedence c10ctx ⟨1, some ⟨["firib"], 1⟩, some 1⟩ ⟨["firib"], 1⟩
    rfl rfl rfl rfl (by decide) (by decide)

/-- Witness for C10: an admin message over a pending buffered reply bumps
the token and the later timer fire sends no fragment. -/
theorem C10_witness :
    ((sendAdminResponse ⟨2, some ⟨["salom"], 1⟩, some 1⟩ "Narxi 99 ming.").1.token = 2 + 1) ∧
    sentFrags ((stepEvent c10ctx
        (sendAdminResponse ⟨2, some ⟨["salom"], 1⟩, some 1⟩ "Narxi 99 ming.").1
        BotEvent.fire).2) = [] :=
  C10_amended c10ctx ⟨2, some ⟨["salom"], 1⟩, some 1⟩ "Narxi 99 ming." ⟨["salom"], 1⟩
    rfl rfl (by decide)

end MN
